import Mathlib

/-!
# SparseVoxelOctree: the application layer (`src/Application.cpp`)

A shallow embedding of `Application::LoadScene`, `Application::Run` and the
immediate-mode UI functions they drive, followed by theorems about them.

Conventions of the embedding.

* The application object is a record (`Application`) passed explicitly.
* The collaborators whose code is outside `Application.cpp` (scene parser,
  voxelizer, octree builder, camera controller) are the fields of an
  environment record (`Env`); their carrier types are the fields of `Types`.
* Every value an ImGui / GLFW / tinyfiledialogs call hands back to the
  application during one frame is a field of the per-frame input record
  (`UIInput`): a button is a `Bool`, a widget that edits a variable in place
  is an `Option` (the value written, `none` when the widget leaves it alone).
* Calls into the collaborators are logged in `Application.trace`, most
  recent event FIRST, so that ordering properties can be stated.
* `new Octree` hands out the serial number `heap_next`; the serial number is
  the identity of the object.
* The collaborators are total functions: a call returns and does not throw.
  The application runs on one thread, as `Run` does.
* The two `char[kFilenameBufSize]` statics of the modal dialogs are strings; a
  `strcpy` into one of them of a string that does not fit (with its terminator)
  is undefined behaviour.  The UI functions that can reach such a `strcpy`
  return an `Option`: `none` stands for "the behaviour is undefined".
-/

namespace SVO

/-! ## Data model -/

/-- Carrier types of the collaborators declared outside `Application.cpp`. -/
structure Types where
  /-- the C++ type `float`; only stored and copied, never computed with -/
  F32 : Type
  /-- the contents of a `Scene` after a successful `Initialize` -/
  Scene : Type
  /-- the state of a `Voxelizer` object -/
  Voxelizer : Type
  /-- the state of an `OctreeBuilder` object -/
  OctreeBuilder : Type
  /-- the contents of an `Octree` object -/
  OctreeData : Type
  /-- what `Camera::Control` reads from the window and the frame timer -/
  Input : Type

/-- The type `glm::vec3`. -/
abbrev Vec3 (T : Types) : Type := T.F32 × T.F32 × T.F32

/-- The public fields of `Camera` that `Application.cpp` reads or writes. -/
structure Camera (T : Types) where
  m_fov : T.F32
  m_speed : T.F32
  m_position : Vec3 T
  m_yaw : T.F32
  m_pitch : T.F32

/-- The enumeration of `OctreeTracer::m_view_type`. -/
inductive OctreeTracerView where
  | kDiffuse
  | kNormal
  | kIteration
  deriving DecidableEq, Repr

/-- The public fields of `OctreeTracer` that `Application.cpp` reads or writes. -/
structure OctreeTracer (T : Types) where
  m_view_type : OctreeTracerView
  m_beam_enable : Bool
  m_beam_dir_size : T.F32
  m_beam_origin_size : T.F32

/-- The enumeration of `PathTracer::m_view_type`. -/
inductive PathTracerView where
  | kColor
  | kAlbedo
  | kNormal
  deriving DecidableEq, Repr

/-- The public fields of `PathTracer` that `Application.cpp` reads or writes. -/
structure PathTracer (T : Types) where
  m_bounce : Int
  m_sun_radiance : Vec3 T
  m_pause : Bool
  m_view_type : PathTracerView

/-- An `Octree` object on the heap: its allocation serial number and its contents. -/
structure Octree (T : Types) where
  id : Nat
  data : T.OctreeData

/-- The two popups of the UI, named by the string given to `ImGui::OpenPopup`. -/
inductive Popup where
  | Load_Scene
  | Export_OpenEXR
  deriving DecidableEq, Repr

/-- Calls into the collaborators (and writes to the camera made by the UI),
as logged in `Application.trace`. An event that takes the octree carries the
serial number of the `Octree` object it was given. -/
inductive Event where
  /-- `scene.Initialize(filename)` returned `ok` -/
  | Scene_Initialize (filename : String) (ok : Bool)
  /-- `voxelizer.Initialize(octree_level)` -/
  | Voxelizer_Initialize (octree_level : Int)
  /-- `voxelizer.Voxelize(scene)` -/
  | Voxelizer_Voxelize
  /-- `m_octree.reset(new Octree)`: the held reference now is object `id` -/
  | reset_new_Octree (id : Nat)
  /-- `builder.Initialize()` -/
  | OctreeBuilder_Initialize
  /-- `builder.Build(octree, voxelizer, octree_level)` has returned for object `id` -/
  | OctreeBuilder_Build (id : Nat) (octree_level : Int)
  /-- `m_camera.Control(m_window, m_fps)` -/
  | Camera_Control
  /-- `m_camera.Update()` -/
  | Camera_Update
  /-- a widget of the `Camera` menu wrote a field of `m_camera` -/
  | Camera_write
  /-- `m_octree_tracer.Render(m_quad, *m_octree, m_camera)` -/
  | OctreeTracer_Render (id : Nat)
  /-- `m_pathtracer.Prepare(m_camera, *m_octree, m_octree_tracer)` -/
  | PathTracer_Prepare (id : Nat)
  /-- `m_pathtracer.Render(m_quad)` -/
  | PathTracer_Render
  /-- `m_pathtracer.Save(exr_name_buf, save_as_fp16)` -/
  | PathTracer_Save (filename : String) (fp16 : Bool)
  /-- `m_octree->GetLevel()` -/
  | Octree_GetLevel (id : Nat)
  /-- `*m_octree` or `m_octree->` evaluated while `m_octree` is null -/
  | null_dereference
  /-- `ImGui::OpenPopup(name)` -/
  | OpenPopup (name : Popup)
  /-- `ImGui::CloseCurrentPopup()` -/
  | CloseCurrentPopup
  deriving DecidableEq, Repr

/-- The members of `Application` that `Application.cpp` reads or writes after
construction, the function-local statics of the two modal dialogs, and the
two ghost fields `heap_next` and `trace`.  The members `m_window`, `m_quad`
and `m_fps` are only handed on to collaborators and are left out. -/
structure Application (T : Types) where
  m_camera : Camera T
  m_octree_tracer : OctreeTracer T
  m_pathtracer : PathTracer T
  /-- the `std::unique_ptr<Octree>`; `none` is the null pointer -/
  m_octree : Option (Octree T)
  m_pathtracing_flag : Bool
  m_ui_display_flag : Bool
  /-- the `static char name_buf[]` of `ui_load_scene_modal` -/
  name_buf : String
  /-- the `static int octree_leve` of `ui_load_scene_modal` -/
  octree_leve : Int
  /-- the `static char exr_name_buf[]` of `ui_export_exr_modal` -/
  exr_name_buf : String
  /-- the `static bool save_as_fp16` of `ui_export_exr_modal` -/
  save_as_fp16 : Bool
  /-- ghost: the serial number the next `new Octree` gets -/
  heap_next : Nat
  /-- ghost: the log of events, most recent first -/
  trace : List Event

/-- The collaborators of `Application.cpp` and the two constants of `Config.hpp`
that `LoadScene` compares with. -/
structure Env (T : Types) where
  kOctreeLevelMin : Int
  kOctreeLevelMax : Int
  /-- `Scene::Initialize`: `none` when it returns `false` -/
  Scene_Initialize : String → Option T.Scene
  /-- a default-constructed `Voxelizer` after `Initialize(octree_level)` -/
  Voxelizer_Initialize : Int → T.Voxelizer
  /-- the voxelizer after `Voxelize(scene)` -/
  Voxelizer_Voxelize : T.Voxelizer → T.Scene → T.Voxelizer
  /-- the contents of a default-constructed `Octree` -/
  Octree_new : T.OctreeData
  /-- a default-constructed `OctreeBuilder` after `Initialize()` -/
  OctreeBuilder_Initialize : T.OctreeBuilder
  /-- the contents `Build(octree, voxelizer, octree_level)` leaves in `*octree` -/
  OctreeBuilder_Build : T.OctreeBuilder → T.OctreeData → T.Voxelizer → Int → T.OctreeData
  /-- the camera after `Control(m_window, m_fps)` -/
  Camera_Control : Camera T → T.Input → Camera T
  /-- the camera after `Update()` -/
  Camera_Update : Camera T → Camera T

/-- What one `InputText` + `Button` + file dialog group hands back
(`ui_file_open`, `ui_file_save`). -/
structure FileWidgetInput where
  /-- `InputText`: the new contents of the buffer when the user edited it -/
  text : Option String
  /-- `Button(btn)` -/
  btn : Bool
  /-- the file name the tinyfiledialogs call returns, `none` for null -/
  dialog : Option String

/-- One key event delivered to `glfw_key_callback`. -/
structure KeyEvent where
  /-- `!NavWindow || (NavWindow->Flags & ImGuiWindowFlags_NoBringToFrontOnFocus)` -/
  nav_free : Bool
  /-- `action == GLFW_PRESS` -/
  press : Bool
  /-- `key == GLFW_KEY_X` -/
  key_X : Bool

/-- Everything the UI library and the window system hand back during one
iteration of the frame loop. -/
structure UIInput (T : Types) where
  btn_Load_Scene : Bool
  btn_Start_PT : Bool
  menu_Camera : Bool
  drag_FOV : Option T.F32
  drag_Speed : Option T.F32
  input_Position : Option (Vec3 T)
  drag_Yaw : Option T.F32
  drag_Pitch : Option T.F32
  menu_Primary_View : Bool
  item_Diffuse : Bool
  item_Normal : Bool
  item_Iterations : Bool
  menu_Beam_Optimization : Bool
  item_Enable : Bool
  drag_Ray_Direction_Size : Option T.F32
  drag_Ray_Origin_Size : Option T.F32
  menu_Path_Tracer : Bool
  drag_Bounce : Option Int
  drag_Sun_Radiance : Option (Vec3 T)
  btn_Exit_PT : Bool
  btn_Export_OpenEXR : Bool
  chk_Pause : Option Bool
  menu_View : Bool
  item_Color : Bool
  item_Albedo : Bool
  item_PT_Normal : Bool
  /-- `BeginPopupModal("Load Scene", ...)` -/
  popup_Load_Scene : Bool
  file_OBJ : FileWidgetInput
  drag_Octree_Level : Option Int
  btn_Load : Bool
  btn_Load_Cancel : Bool
  /-- `BeginPopupModal("Export OpenEXR", ...)` -/
  popup_Export_OpenEXR : Bool
  file_EXR : FileWidgetInput
  chk_FP16 : Option Bool
  btn_Export : Bool
  btn_Export_Cancel : Bool
  /-- `ImGui::Begin("INFO", ...)` -/
  begin_INFO : Bool
  /-- the window input `Camera::Control` reads -/
  control : T.Input
  /-- the key events `glfwPollEvents` delivers -/
  key_events : List KeyEvent

variable {T : Types}

/-! ## Small helpers -/

/-- Log one event. -/
def Application.emit (s : Application T) (e : Event) : Application T :=
  { s with trace := e :: s.trace }

/-- Log a list of events given in chronological order. -/
def Application.emits (s : Application T) (es : List Event) : Application T :=
  { s with trace := es.reverse ++ s.trace }

/-- A call that dereferences `m_octree`: the event `call id` for the held
object, `null_dereference` when the pointer is null. -/
def Application.deref (s : Application T) (call : Nat → Event) : Application T :=
  match s.m_octree with
  | some o => s.emit (call o.id)
  | none => s.emit Event.null_dereference

/-- An in-place editing widget: the variable afterwards. -/
def edit {α : Type} (v : α) : Option α → α
  | none => v
  | some w => w

/-- The `Camera_write` event of an editing widget of the `Camera` menu. -/
def writes {α : Type} : Option α → List Event
  | none => []
  | some _ => [Event.Camera_write]

/-! ## `Application::LoadScene` (lines 52-68) -/

/-- Line 63, `m_octree.reset(new Octree)`: a new object is allocated and default
constructed, the held reference is pointed at it (the previous object is freed). -/
def reset_new_Octree (env : Env T) (s : Application T) : Application T :=
  { s with
    m_octree := some { id := s.heap_next, data := env.Octree_new }
    heap_next := s.heap_next + 1
    trace := Event.reset_new_Octree s.heap_next :: s.trace }

/-- Line 66, `builder.Build(m_octree.get(), voxelizer, octree_level)`: the object
`m_octree` points at is built in place. -/
def Build (env : Env T) (s : Application T) (builder : T.OctreeBuilder)
    (voxelizer : T.Voxelizer) (octree_level : Int) : Application T :=
  match s.m_octree with
  | some o =>
    { s with
      m_octree := some { o with
        data := env.OctreeBuilder_Build builder o.data voxelizer octree_level }
      trace := Event.OctreeBuilder_Build o.id octree_level :: s.trace }
  | none => s.emit Event.null_dereference

/-- The function `Application::LoadScene(filename, octree_level)`. -/
def LoadScene (env : Env T) (s : Application T) (filename : String)
    (octree_level : Int) : Application T :=
  if octree_level < env.kOctreeLevelMin ∨ octree_level > env.kOctreeLevelMax then s
  else
    match env.Scene_Initialize filename with
    | none => s.emit (Event.Scene_Initialize filename false)
    | some scene =>
      let s := s.emit (Event.Scene_Initialize filename true)
      let voxelizer := env.Voxelizer_Initialize octree_level
      let s := s.emit (Event.Voxelizer_Initialize octree_level)
      let voxelizer := env.Voxelizer_Voxelize voxelizer scene
      let s := s.emit Event.Voxelizer_Voxelize
      let s := reset_new_Octree env s
      let builder := env.OctreeBuilder_Initialize
      let s := s.emit Event.OctreeBuilder_Initialize
      Build env s builder voxelizer octree_level

/-- The states `LoadScene` passes through, in order: the state at entry and
the state after each statement that changes the modelled state. -/
def LoadScene_states (env : Env T) (s : Application T) (filename : String)
    (octree_level : Int) : List (Application T) :=
  if octree_level < env.kOctreeLevelMin ∨ octree_level > env.kOctreeLevelMax then [s]
  else
    match env.Scene_Initialize filename with
    | none => [s, s.emit (Event.Scene_Initialize filename false)]
    | some scene =>
      let s1 := s.emit (Event.Scene_Initialize filename true)
      let voxelizer := env.Voxelizer_Initialize octree_level
      let s2 := s1.emit (Event.Voxelizer_Initialize octree_level)
      let voxelizer := env.Voxelizer_Voxelize voxelizer scene
      let s3 := s2.emit Event.Voxelizer_Voxelize
      let s4 := reset_new_Octree env s3
      let builder := env.OctreeBuilder_Initialize
      let s5 := s4.emit Event.OctreeBuilder_Initialize
      let s6 := Build env s5 builder voxelizer octree_level
      [s, s1, s2, s3, s4, s5, s6]

/-! ## `Application::ui_main_menubar` and the two modal dialogs (lines 154-335) -/

/-- Lines 165-169, the button `Start PT`; the button is only asked when
`m_octree` is non-null (short-circuit `&&`). -/
def menubar_Start_PT (s : Application T) (ui : UIInput T) : Application T :=
  if s.m_octree.isSome && ui.btn_Start_PT then
    let s := { s with m_pathtracing_flag := true }
    s.deref Event.PathTracer_Prepare
  else s

/-- Lines 171-179, the menu `Camera`. -/
def menubar_Camera (s : Application T) (ui : UIInput T) : Application T :=
  if ui.menu_Camera then
    let s := { s with
      m_camera :=
        { m_fov := edit s.m_camera.m_fov ui.drag_FOV
          m_speed := edit s.m_camera.m_speed ui.drag_Speed
          m_position := edit s.m_camera.m_position ui.input_Position
          m_yaw := edit s.m_camera.m_yaw ui.drag_Yaw
          m_pitch := edit s.m_camera.m_pitch ui.drag_Pitch } }
    s.emits (writes ui.drag_FOV ++ writes ui.drag_Speed ++ writes ui.input_Position
      ++ writes ui.drag_Yaw ++ writes ui.drag_Pitch)
  else s

/-- Lines 181-190, the menu `Primary View`, acting on `m_octree_tracer`. -/
def menubar_Primary_View (t : OctreeTracer T) (ui : UIInput T) : OctreeTracer T :=
  if ui.menu_Primary_View then
    let t := if ui.item_Diffuse then { t with m_view_type := OctreeTracerView.kDiffuse } else t
    let t := if ui.item_Normal then { t with m_view_type := OctreeTracerView.kNormal } else t
    if ui.item_Iterations then { t with m_view_type := OctreeTracerView.kIteration } else t
  else t

/-- Lines 192-199, the menu `Beam Optimization`, acting on `m_octree_tracer`. -/
def menubar_Beam_Optimization (t : OctreeTracer T) (ui : UIInput T) : OctreeTracer T :=
  if ui.menu_Beam_Optimization then
    let t := if ui.item_Enable then { t with m_beam_enable := xor t.m_beam_enable true } else t
    let t := { t with m_beam_dir_size := edit t.m_beam_dir_size ui.drag_Ray_Direction_Size }
    { t with m_beam_origin_size := edit t.m_beam_origin_size ui.drag_Ray_Origin_Size }
  else t

/-- Lines 201-206, the menu `Path Tracer`, acting on `m_pathtracer`. -/
def menubar_Path_Tracer (p : PathTracer T) (ui : UIInput T) : PathTracer T :=
  if ui.menu_Path_Tracer then
    let p := { p with m_bounce := edit p.m_bounce ui.drag_Bounce }
    { p with m_sun_radiance := edit p.m_sun_radiance ui.drag_Sun_Radiance }
  else p

/-- Lines 215-227, the checkbox `Pause` and the menu `View`, acting on `m_pathtracer`. -/
def menubar_Pause_View (p : PathTracer T) (ui : UIInput T) : PathTracer T :=
  let p := { p with m_pause := edit p.m_pause ui.chk_Pause }
  if ui.menu_View then
    let p := if ui.item_Color then { p with m_view_type := PathTracerView.kColor } else p
    let p := if ui.item_Albedo then { p with m_view_type := PathTracerView.kAlbedo } else p
    if ui.item_PT_Normal then { p with m_view_type := PathTracerView.kNormal } else p
  else p

/-- Lines 210-227, the controls shown while path tracing (`Export OpenEXR`
only sets the local `open_export_exr_popup`, see `ui_main_menubar`). -/
def menubar_pathtracing (s : Application T) (ui : UIInput T) : Application T :=
  let s := if ui.btn_Exit_PT then { s with m_pathtracing_flag := false } else s
  { s with m_pathtracer := menubar_Pause_View s.m_pathtracer ui }

/-- Lines 160-228, everything between `BeginMainMenuBar` and `EndMainMenuBar`. -/
def menubar (s : Application T) (ui : UIInput T) : Application T :=
  if !s.m_pathtracing_flag then
    let s := menubar_Start_PT s ui
    let s := menubar_Camera s ui
    let s := { s with m_octree_tracer := menubar_Primary_View s.m_octree_tracer ui }
    let s := { s with m_octree_tracer := menubar_Beam_Optimization s.m_octree_tracer ui }
    { s with m_pathtracer := menubar_Path_Tracer s.m_pathtracer ui }
  else if s.m_octree.isSome then menubar_pathtracing s ui
  else s

/-- Line 17, the size of the two file name buffers. -/
def kFilenameBufSize : Nat := 512

/-- The call `ImGui::InputText(label, buf, buf_size)`: the returned flag and the
buffer afterwards.  The widget is given the size of the buffer and never writes
past it: an edit that does not fit (with its terminator) is not applied. -/
def InputText (buf : String) (buf_size : Nat) (text : Option String) : Bool × String :=
  match text with
  | some t => if t.utf8ByteSize < buf_size then (true, t) else (false, buf)
  | none => (false, buf)

/-- The call `strcpy(buf, filename)` into a buffer of `buf_size` bytes: the buffer
afterwards; undefined (`none`) when `filename` with its terminator does not fit. -/
def strcpy (buf_size : Nat) (filename : String) : Option String :=
  if filename.utf8ByteSize < buf_size then some filename else none

/-- The function `ui_file_open` (lines 240-255): the returned flag and the buffer
afterwards, `none` when the `strcpy` of line 251 overflows the buffer. -/
def ui_file_open (buf : String) (buf_size : Nat) (w : FileWidgetInput) :
    Option (Bool × String) :=
  let r := InputText buf buf_size w.text
  if w.btn then
    match w.dialog with
    | some filename => (strcpy buf_size filename).map (fun b => (true, b))
    | none => some (true, r.2)
  else some r

/-- The function `ui_file_save` (lines 257-272): the returned flag and the buffer
afterwards, `none` when the `strcpy` of line 268 overflows the buffer. -/
def ui_file_save (buf : String) (buf_size : Nat) (w : FileWidgetInput) :
    Option (Bool × String) :=
  let r := InputText buf buf_size w.text
  if w.btn then
    match w.dialog with
    | some filename => (strcpy buf_size filename).map (fun b => (true, b))
    | none => some (true, r.2)
  else some r

/-- Lines 286-296 of `ui_load_scene_modal`: the controls below the file name. -/
def load_scene_controls (env : Env T) (s : Application T) (ui : UIInput T) :
    Application T :=
  let s := { s with octree_leve := edit s.octree_leve ui.drag_Octree_Level }
  let s :=
    if ui.btn_Load then
      (LoadScene env s s.name_buf s.octree_leve).emit Event.CloseCurrentPopup
    else s
  if ui.btn_Load_Cancel then s.emit Event.CloseCurrentPopup else s

/-- The function `Application::ui_load_scene_modal`; `none` when `ui_file_open`
overflows `name_buf`. -/
def ui_load_scene_modal (env : Env T) (s : Application T) (ui : UIInput T) :
    Option (Application T) :=
  if ui.popup_Load_Scene then
    (ui_file_open s.name_buf kFilenameBufSize ui.file_OBJ).map
      (fun r => load_scene_controls env { s with name_buf := r.2 } ui)
  else some s

/-- Lines 317-331 of `ui_export_exr_modal`: the controls below the file name. -/
def export_exr_controls (s : Application T) (ui : UIInput T) : Application T :=
  let s := { s with save_as_fp16 := edit s.save_as_fp16 ui.chk_FP16 }
  let s :=
    if ui.btn_Export then
      (s.emit (Event.PathTracer_Save s.exr_name_buf s.save_as_fp16)).emit
        Event.CloseCurrentPopup
    else s
  if ui.btn_Export_Cancel then s.emit Event.CloseCurrentPopup else s

/-- The function `Application::ui_export_exr_modal`; `none` when `ui_file_save`
overflows `exr_name_buf`. -/
def ui_export_exr_modal (s : Application T) (ui : UIInput T) : Option (Application T) :=
  if ui.popup_Export_OpenEXR then
    (ui_file_save s.exr_name_buf kFilenameBufSize ui.file_EXR).map
      (fun r => export_exr_controls { s with exr_name_buf := r.2 } ui)
  else some s

/-- Lines 156-235 of `ui_main_menubar`: the menubar and the two `OpenPopup` calls. -/
def menubar_popups (s : Application T) (ui : UIInput T) : Application T :=
  let open_load_scene_popup := !s.m_pathtracing_flag && ui.btn_Load_Scene
  let open_export_exr_popup :=
    s.m_pathtracing_flag && (s.m_octree.isSome && ui.btn_Export_OpenEXR)
  let s := menubar s ui
  let s := if open_load_scene_popup then s.emit (Event.OpenPopup Popup.Load_Scene) else s
  if open_export_exr_popup then s.emit (Event.OpenPopup Popup.Export_OpenEXR) else s

/-- The function `Application::ui_main_menubar`; `none` when one of the modals
overflows its file name buffer. -/
def ui_main_menubar (env : Env T) (s : Application T) (ui : UIInput T) :
    Option (Application T) :=
  let s := menubar_popups s ui
  (ui_load_scene_modal env s ui).bind (fun s => ui_export_exr_modal s ui)

/-- The function `Application::ui_info_overlay` (the texts only read). -/
def ui_info_overlay (s : Application T) (ui : UIInput T) : Application T :=
  if ui.begin_INFO then
    if s.m_octree.isSome then s.deref Event.Octree_GetLevel else s
  else s

/-- The function `Application::ui_main`. -/
def ui_main (env : Env T) (s : Application T) (ui : UIInput T) : Option (Application T) :=
  (ui_main_menubar env s ui).map (fun s => ui_info_overlay s ui)

/-! ## `Application::Run` (lines 76-108) and `glfw_key_callback` -/

/-- The function `Application::glfw_key_callback`. -/
def glfw_key_callback (s : Application T) (k : KeyEvent) : Application T :=
  if k.nav_free then
    if k.press && k.key_X then
      { s with m_ui_display_flag := xor s.m_ui_display_flag true }
    else s
  else s

/-- Line 87 of `Run`: `if(m_ui_display_flag) ui_main();`. -/
def Run_ui (env : Env T) (s : Application T) (ui : UIInput T) : Option (Application T) :=
  if s.m_ui_display_flag then ui_main env s ui else some s

/-- Lines 89-100 of `Run`: the render step. -/
def Run_render (env : Env T) (s : Application T) (ui : UIInput T) : Application T :=
  if s.m_octree.isSome then
    if s.m_pathtracing_flag then s.emit Event.PathTracer_Render
    else
      let s := { s with m_camera := env.Camera_Control s.m_camera ui.control }
      let s := s.emit Event.Camera_Control
      let s := { s with m_camera := env.Camera_Update s.m_camera }
      let s := s.emit Event.Camera_Update
      s.deref Event.OctreeTracer_Render
  else s

/-- One iteration of the loop of `Application::Run` (lines 80-106); the key
callback runs inside `glfwPollEvents`. -/
def Run_iteration (env : Env T) (s : Application T) (ui : UIInput T) :
    Option (Application T) :=
  (Run_ui env s ui).map
    (fun s => ui.key_events.foldl glfw_key_callback (Run_render env s ui))

/-- The function `Application::Run`: one iteration per frame until the window
is asked to close; `frames` holds the inputs of the frames that are run. -/
def Run (env : Env T) (s : Application T) : List (UIInput T) → Option (Application T)
  | [] => some s
  | ui :: frames => (Run_iteration env s ui).bind (fun s => Run env s frames)

/-! ## Executions of the application -/

/-- An operation on the application: a call of the public `LoadScene`, or one
iteration of the frame loop. -/
inductive Op (T : Types) where
  | LoadScene (filename : String) (octree_level : Int)
  | frame (ui : UIInput T)

/-- Perform one operation; `none` when its behaviour is undefined. -/
def Op.run (env : Env T) (s : Application T) : Op T → Option (Application T)
  | Op.LoadScene filename octree_level => some (SVO.LoadScene env s filename octree_level)
  | Op.frame ui => Run_iteration env s ui

/-- Perform a sequence of operations; `none` when the behaviour of one of them
is undefined. -/
def exec (env : Env T) (s : Application T) : List (Op T) → Option (Application T)
  | [] => some s
  | op :: ops => (op.run env s).bind (fun s => exec env s ops)

/-- The file name the dialog of a file widget returns, if its button is pressed
and the dialog returns one, fits a buffer of `buf_size` bytes. -/
def FileWidgetInput.fits (w : FileWidgetInput) (buf_size : Nat) : Bool :=
  !w.btn || match w.dialog with
    | some filename => decide (filename.utf8ByteSize < buf_size)
    | none => true

/-- The file names the dialogs of the two modals return in this frame fit the
buffers they are copied to. -/
def UIInput.fits (ui : UIInput T) : Bool :=
  (!ui.popup_Load_Scene || ui.file_OBJ.fits kFilenameBufSize)
    && (!ui.popup_Export_OpenEXR || ui.file_EXR.fits kFilenameBufSize)

/-- The file names the dialogs return during the operation fit their buffers. -/
def Op.fits : Op T → Bool
  | Op.LoadScene _ _ => true
  | Op.frame ui => ui.fits

/-- Modelled from the spec: the member declarations of `Application.hpp`, with
their default initialisers, are not among the sources.  Right after construction
no scene has been loaded, so no octree is held (the spec has callers check "is
there an octree"), and path tracing has not been started; the tracers, the camera
and the UI display flag are whatever the constructor left.  The statics of the
modal dialogs have the initial values written in `Application.cpp`. -/
def Application.constructed (cam : Camera T) (ot : OctreeTracer T) (pt : PathTracer T)
    (ui_display : Bool) : Application T :=
  { m_camera := cam
    m_octree_tracer := ot
    m_pathtracer := pt
    m_octree := none
    m_pathtracing_flag := false
    m_ui_display_flag := ui_display
    name_buf := ""
    octree_leve := 10
    exr_name_buf := ""
    save_as_fp16 := false
    heap_next := 0
    trace := [] }

/-- A frame in which the user touches nothing; no menu and no modal is open. -/
def UIInput.idle (control : T.Input) : UIInput T :=
  { btn_Load_Scene := false, btn_Start_PT := false, menu_Camera := false
    drag_FOV := none, drag_Speed := none, input_Position := none
    drag_Yaw := none, drag_Pitch := none
    menu_Primary_View := false, item_Diffuse := false, item_Normal := false
    item_Iterations := false
    menu_Beam_Optimization := false, item_Enable := false
    drag_Ray_Direction_Size := none, drag_Ray_Origin_Size := none
    menu_Path_Tracer := false, drag_Bounce := none, drag_Sun_Radiance := none
    btn_Exit_PT := false, btn_Export_OpenEXR := false, chk_Pause := none
    menu_View := false, item_Color := false, item_Albedo := false
    item_PT_Normal := false
    popup_Load_Scene := false
    file_OBJ := { text := none, btn := false, dialog := none }
    drag_Octree_Level := none, btn_Load := false, btn_Load_Cancel := false
    popup_Export_OpenEXR := false
    file_EXR := { text := none, btn := false, dialog := none }
    chk_FP16 := none, btn_Export := false, btn_Export_Cancel := false
    begin_INFO := true
    control := control
    key_events := [] }

/-! ## Predicates on states and traces -/

/-- The serial number of the held `Octree` object, `none` for a null `m_octree`. -/
def Application.held (s : Application T) : Option Nat :=
  s.m_octree.map Octree.id

/-- The object `OctreeBuilder::Build` has returned for, if the event is such a return. -/
def Event.built : Event → Option Nat
  | Event.OctreeBuilder_Build id _ => some id
  | _ => none

/-- The serial numbers of the objects for which `Build` has returned in a trace. -/
def built_ids (tr : List Event) : List Nat :=
  tr.filterMap Event.built

/-- The octree handed to a tracer (`OctreeTracer::Render`, `PathTracer::Prepare`),
if the event is such a call. -/
def Event.tracer_octree : Event → Option Nat
  | Event.OctreeTracer_Render id => some id
  | Event.PathTracer_Prepare id => some id
  | _ => none

/-- The held octree, if any, is one on which `Build` has finished. -/
def Application.Built (s : Application T) : Prop :=
  ∀ i ∈ s.held, i ∈ built_ids s.trace

/-- Every held object was allocated earlier: its serial number is below `heap_next`. -/
def Application.WF (s : Application T) : Prop :=
  ∀ i ∈ s.held, i < s.heap_next

/-- No object with a serial number that is still to be handed out has been built. -/
def Application.Unused (s : Application T) : Prop :=
  ∀ i ∈ built_ids s.trace, i < s.heap_next

/-- The allocation discipline: `WF` and `Unused` together. -/
def Application.Alloc (s : Application T) : Prop :=
  s.WF ∧ s.Unused

instance (s : Application T) : Decidable s.Unused := by
  unfold Application.Unused; infer_instance

instance (s : Application T) : Decidable s.Built := by
  unfold Application.Built; infer_instance

instance (s : Application T) : Decidable s.WF := by
  unfold Application.WF; infer_instance

/-- The events logged between state `s0` and a later state `s`, in
chronological order. -/
def Application.since (s s0 : Application T) : List Event :=
  (s.trace.take (s.trace.length - s0.trace.length)).reverse

/-- The four calls the render step of `Run` chooses between. -/
def Event.is_frame_call : Event → Bool
  | Event.Camera_Control => true
  | Event.Camera_Update => true
  | Event.OctreeTracer_Render _ => true
  | Event.PathTracer_Render => true
  | _ => false

/-- The events in which `Application.cpp` evaluates `*m_octree` or `m_octree->`. -/
def Event.derefs_octree : Event → Bool
  | Event.OctreeTracer_Render _ => true
  | Event.PathTracer_Prepare _ => true
  | Event.Octree_GetLevel _ => true
  | Event.null_dereference => true
  | _ => false

/-- The events that change the held octree (the reference or the contents of the
object referred to) or the camera. -/
def Event.is_change : Event → Bool
  | Event.reset_new_Octree _ => true
  | Event.OctreeBuilder_Build _ _ => true
  | Event.Camera_Control => true
  | Event.Camera_Update => true
  | Event.Camera_write => true
  | _ => false

/-- The calls of `PathTracer::Prepare`. -/
def Event.is_Prepare : Event → Bool
  | Event.PathTracer_Prepare _ => true
  | _ => false

/-- Temporal property "a change is followed by a `Prepare` before the next
`PathTracer::Render`", on a trace (most recent first): whenever a change `c` is
followed later by a `PathTracer::Render`, some `Prepare` lies in between. -/
def PrepareBeforeRender (tr : List Event) : Prop :=
  ∀ later mid earlier c, tr = later ++ Event.PathTracer_Render :: (mid ++ c :: earlier) →
    c.is_change = true → ∃ e ∈ mid, e.is_Prepare = true

/-- Temporal property "the tracers only get built octrees", on a trace (most
recent first): whenever an octree is handed to `OctreeTracer::Render` or
`PathTracer::Prepare`, `Build` has returned for that object earlier. -/
def TracersGetBuilt (tr : List Event) : Prop :=
  ∀ later earlier e, tr = later ++ e :: earlier →
    ∀ i ∈ e.tracer_octree, i ∈ built_ids earlier

/-- Whether a change has been logged after the last `Prepare` of the trace. -/
def stale : List Event → Bool
  | [] => false
  | e :: older => if e.is_Prepare then false else if e.is_change then true else stale older

/-- Monitor for `PrepareBeforeRender`: nothing is stale at any `PathTracer::Render`. -/
def RenderFresh : List Event → Prop
  | [] => True
  | e :: older => (e = Event.PathTracer_Render → stale older = false) ∧ RenderFresh older

/-- Monitor for `TracersGetBuilt`. -/
def TraceBuilt : List Event → Prop
  | [] => True
  | e :: older => (∀ i ∈ e.tracer_octree, i ∈ built_ids older) ∧ TraceBuilt older

/-- Whether the modal `Load Scene` calls `LoadScene` in this frame. -/
def UIInput.loads (ui : UIInput T) : Bool :=
  ui.popup_Load_Scene && ui.btn_Load

/-- Whether the menu `Camera` writes a field of `m_camera` in this frame. -/
def UIInput.edits_camera (ui : UIInput T) : Bool :=
  ui.menu_Camera && (ui.drag_FOV.isSome || ui.drag_Speed.isSome || ui.input_Position.isSome
    || ui.drag_Yaw.isSome || ui.drag_Pitch.isSome)

/-- An operation that respects the way the menubar gates scene loading and camera
editing: `LoadScene` is performed (directly, or by the button `Load` of the modal,
which runs after the menubar proper) only while `m_pathtracing_flag` is false, and
the menu `Camera` writes nothing in a frame in which `Start PT` is pressed. -/
def Op.gated (s : Application T) : Op T → Bool
  | Op.LoadScene _ _ => !s.m_pathtracing_flag
  | Op.frame ui =>
    (!ui.loads || !(menubar s ui).m_pathtracing_flag)
      && (!ui.btn_Start_PT || !ui.edits_camera)

/-- Every operation of the sequence is gated in the state it is performed in (as
far as the execution is defined). -/
def gated_run (env : Env T) (s : Application T) : List (Op T) → Bool
  | [] => true
  | op :: ops =>
    op.gated s && match op.run env s with
      | some t => gated_run env t ops
      | none => true

/-- The input `ui` with every control of the not-path-tracing branch of the
menubar (lines 162-206) replaced by the one of `other`. -/
def UIInput.with_idle_controls (ui other : UIInput T) : UIInput T :=
  { ui with
    btn_Load_Scene := other.btn_Load_Scene
    btn_Start_PT := other.btn_Start_PT
    menu_Camera := other.menu_Camera
    drag_FOV := other.drag_FOV
    drag_Speed := other.drag_Speed
    input_Position := other.input_Position
    drag_Yaw := other.drag_Yaw
    drag_Pitch := other.drag_Pitch
    menu_Primary_View := other.menu_Primary_View
    item_Diffuse := other.item_Diffuse
    item_Normal := other.item_Normal
    item_Iterations := other.item_Iterations
    menu_Beam_Optimization := other.menu_Beam_Optimization
    item_Enable := other.item_Enable
    drag_Ray_Direction_Size := other.drag_Ray_Direction_Size
    drag_Ray_Origin_Size := other.drag_Ray_Origin_Size
    menu_Path_Tracer := other.menu_Path_Tracer
    drag_Bounce := other.drag_Bounce
    drag_Sun_Radiance := other.drag_Sun_Radiance }

/-! ## Relating a state to a later one -/

/-- State `t` has the trace of `s` extended by events that all satisfy `P`. -/
def Logs (P : Event → Prop) (s t : Application T) : Prop :=
  ∃ evs, t.trace = evs ++ s.trace ∧ ∀ e ∈ evs, P e

/-- The events the UI functions may log: none of the four calls of the render
step, no null dereference, and a call that dereferences `m_octree` only when an
octree is held (`octree = true`). -/
def Event.ui_ok (octree : Bool) : Event → Bool
  | Event.Camera_Control => false
  | Event.Camera_Update => false
  | Event.OctreeTracer_Render _ => false
  | Event.PathTracer_Render => false
  | Event.null_dereference => false
  | Event.PathTracer_Prepare _ => octree
  | Event.Octree_GetLevel _ => octree
  | _ => true

/-- Summary of a UI function that takes `s` to `t`: a held octree stays held, and
the events logged are UI events for the octree held at the end. -/
def UIStep (s t : Application T) : Prop :=
  (s.m_octree.isSome = true → t.m_octree.isSome = true)
    ∧ Logs (fun e => e.ui_ok t.m_octree.isSome = true) s t

/-- The invariant of the application: the tracers were only ever handed built
octrees, the held octree is built, path tracing is only on while an octree is
held, and the null pointer was never dereferenced. -/
def Application.Inv (s : Application T) : Prop :=
  TraceBuilt s.trace ∧ s.Built
    ∧ (s.m_pathtracing_flag = true → s.m_octree.isSome = true)
    ∧ Event.null_dereference ∉ s.trace

/-- While path tracing, nothing has changed since the last `Prepare`. -/
def Application.Fresh (s : Application T) : Prop :=
  s.m_pathtracing_flag = true → stale s.trace = false

/-- An event that is neither a change nor a `Prepare`. -/
def Event.neutral (e : Event) : Bool :=
  !e.is_change && !e.is_Prepare

/-! ## A concrete instance, used to exhibit executions -/

/-- Concrete carriers: floats are stood for by integers, a scene by its number
of triangles, a voxelizer by its level and fragment count, an octree by its
node count. -/
abbrev demoTypes : Types :=
  { F32 := Int, Scene := Nat, Voxelizer := Int × Nat, OctreeBuilder := Unit
    OctreeData := Nat, Input := Int }

/-- Concrete collaborators: levels 2..12 are accepted, the empty file name does
not parse, `Camera::Control` moves the camera along the first axis. -/
def demoEnv : Env demoTypes :=
  { kOctreeLevelMin := 2
    kOctreeLevelMax := 12
    Scene_Initialize := fun f => if f.length = 0 then none else some f.length
    Voxelizer_Initialize := fun l => (l, 0)
    Voxelizer_Voxelize := fun v sc => (v.1, sc)
    Octree_new := 0
    OctreeBuilder_Initialize := ()
    OctreeBuilder_Build := fun _ d v l => d + v.2 + l.toNat + 1
    Camera_Control := fun c i =>
      { c with m_position := (c.m_position.1 + i, c.m_position.2) }
    Camera_Update := fun c => c }

/-- The concrete camera after construction. -/
def demoCamera : Camera demoTypes :=
  { m_fov := 60, m_speed := 1, m_position := (1, 1, 1), m_yaw := 0, m_pitch := 0 }

/-- The concrete octree tracer after construction. -/
def demoOctreeTracer : OctreeTracer demoTypes :=
  { m_view_type := OctreeTracerView.kDiffuse, m_beam_enable := true
    m_beam_dir_size := 0, m_beam_origin_size := 0 }

/-- The concrete path tracer after construction. -/
def demoPathTracer : PathTracer demoTypes :=
  { m_bounce := 4, m_sun_radiance := (5, 5, 5), m_pause := false
    m_view_type := PathTracerView.kColor }

/-- The concrete application right after construction. -/
def demoApp : Application demoTypes :=
  Application.constructed demoCamera demoOctreeTracer demoPathTracer true

/-- An idle frame of the concrete instance. -/
def demoIdle : UIInput demoTypes := UIInput.idle (0 : Int)

/-- The concrete application after a first scene has been loaded. -/
def demoLoaded : Application demoTypes :=
  LoadScene demoEnv demoApp "a.obj" 10

/-- Frame 1: the user presses `Load Scene`, the modal appears and the file name is
typed in. -/
def demoFrame_open_modal : UIInput demoTypes :=
  { demoIdle with
    btn_Load_Scene := true
    popup_Load_Scene := true
    file_OBJ := { text := some "a.obj", btn := false, dialog := none } }

/-- Frame 2: the modal is shown and the user presses `Load`. -/
def demoFrame_Load : UIInput demoTypes :=
  { demoIdle with popup_Load_Scene := true, btn_Load := true }

/-- A frame in which the user presses `Start PT`. -/
def demoFrame_Start_PT : UIInput demoTypes :=
  { demoIdle with btn_Start_PT := true }

/-- A frame in which the user presses `Exit PT`. -/
def demoFrame_Exit_PT : UIInput demoTypes :=
  { demoIdle with btn_Exit_PT := true }

/-- A frame in which the user presses `Export OpenEXR` and the export modal appears. -/
def demoFrame_open_export : UIInput demoTypes :=
  { demoIdle with btn_Export_OpenEXR := true, popup_Export_OpenEXR := true }

/-- A frame in which the export modal is shown and the user ticks `Export As FP16`. -/
def demoFrame_tick_FP16 : UIInput demoTypes :=
  { demoIdle with popup_Export_OpenEXR := true, chk_FP16 := some true }

/-- The operations that load a scene through the UI and start path tracing. -/
def demoPathTracingOps : List (Op demoTypes) :=
  [Op.frame demoFrame_open_modal, Op.frame demoFrame_Load, Op.frame demoFrame_Start_PT]

/-- The concrete application path tracing a scene loaded through the UI (the
default is not used: the execution is defined). -/
def demoPathTracing : Application demoTypes :=
  (exec demoEnv demoApp demoPathTracingOps).getD demoApp

/-- The concrete application path tracing, with the export modal open. -/
def demoExporting : Application demoTypes :=
  (exec demoEnv demoPathTracing [Op.frame demoFrame_open_export]).getD demoApp

/-- A gated execution that ends path tracing: a scene is loaded and rendered, the
camera is edited, path tracing is started, run, left and started again. -/
def demoGatedOps : List (Op demoTypes) :=
  [Op.frame demoFrame_open_modal, Op.frame demoFrame_Load, Op.frame demoIdle,
   Op.frame { demoIdle with menu_Camera := true, drag_FOV := some 75 },
   Op.frame demoFrame_Start_PT, Op.frame demoIdle, Op.frame demoFrame_Exit_PT,
   Op.LoadScene "bb.obj" 9, Op.frame demoFrame_Start_PT, Op.frame demoIdle]

/-- An execution in which `LoadScene` is called while path tracing, followed by one
more frame. -/
def demoReloadOps : List (Op demoTypes) :=
  [Op.frame demoFrame_open_modal, Op.frame demoFrame_Load, Op.frame demoFrame_Start_PT,
   Op.LoadScene "bb.obj" 9, Op.frame demoIdle]

/-- The state the gated execution ends in. -/
def demoGatedEnd : Application demoTypes :=
  (exec demoEnv demoApp demoGatedOps).getD demoApp

/-- The state the execution with the reload ends in. -/
def demoReloadEnd : Application demoTypes :=
  (exec demoEnv demoApp demoReloadOps).getD demoApp

/-- The state after the UI part of a frame in which `Start PT` is pressed with a
scene loaded. -/
def demoStarted : Application demoTypes :=
  (Run_ui demoEnv demoLoaded demoFrame_Start_PT).getD demoApp

/-- The state after the UI part of a frame in which `Start PT` is pressed with no
scene loaded. -/
def demoNotStarted : Application demoTypes :=
  (Run_ui demoEnv demoApp demoFrame_Start_PT).getD demoLoaded

/-! ## Basic facts about the trace -/

theorem since_of_trace_eq {s t : Application T} {evs : List Event}
    (h : t.trace = evs ++ s.trace) : t.since s = evs.reverse := by
  simp [Application.since, h]

theorem since_self (s : Application T) : s.since s = [] := by
  simp [Application.since]

/-! ## `LoadScene` -/

theorem LoadScene_states_getLast (env : Env T) (s : Application T) (filename : String)
    (octree_level : Int) :
    (LoadScene_states env s filename octree_level).getLast?
      = some (LoadScene env s filename octree_level) := by
  unfold LoadScene_states LoadScene
  split
  · rfl
  · split <;> rfl

/-- C1: with `octree_level` below `kOctreeLevelMin` or above `kOctreeLevelMax`,
`LoadScene` returns the application exactly as it was (the held octree and every
other member, and the log of calls: no `Scene::Initialize`, no voxelizer or
builder call), and it passes through no other state on the way. -/
theorem LoadScene_level_out_of_range (env : Env T) (s : Application T)
    (filename : String) (octree_level : Int)
    (h : octree_level < env.kOctreeLevelMin ∨ octree_level > env.kOctreeLevelMax) :
    LoadScene env s filename octree_level = s
      ∧ LoadScene_states env s filename octree_level = [s] := by
  simp [LoadScene, LoadScene_states, h]

theorem LoadScene_level_out_of_range_witness :
    ((13 : Int) < demoEnv.kOctreeLevelMin ∨ (13 : Int) > demoEnv.kOctreeLevelMax)
      ∧ (LoadScene demoEnv demoLoaded "a.obj" 13 = demoLoaded
        ∧ LoadScene_states demoEnv demoLoaded "a.obj" 13 = [demoLoaded]) :=
  ⟨by decide, LoadScene_level_out_of_range demoEnv demoLoaded "a.obj" 13 (by decide)⟩

/-- C2: with `octree_level` in range and a mesh that does not parse
(`Scene::Initialize` returns false), `LoadScene` only logs the failed
`Scene::Initialize`: no voxelizer and no builder call is made, and `m_octree`
(like every other member) is what it was before the call. -/
theorem LoadScene_parse_failure (env : Env T) (s : Application T)
    (filename : String) (octree_level : Int)
    (hmin : env.kOctreeLevelMin ≤ octree_level) (hmax : octree_level ≤ env.kOctreeLevelMax)
    (hparse : env.Scene_Initialize filename = none) :
    (LoadScene env s filename octree_level).m_octree = s.m_octree
      ∧ (LoadScene env s filename octree_level).since s
          = [Event.Scene_Initialize filename false]
      ∧ LoadScene env s filename octree_level
          = { s with trace := Event.Scene_Initialize filename false :: s.trace } := by
  have hr : ¬ (octree_level < env.kOctreeLevelMin ∨ octree_level > env.kOctreeLevelMax) := by
    omega
  have e : LoadScene env s filename octree_level
      = { s with trace := Event.Scene_Initialize filename false :: s.trace } := by
    simp [LoadScene, hr, hparse, Application.emit]
  refine ⟨by rw [e], ?_, e⟩
  rw [e]
  have ht : ({ s with trace := Event.Scene_Initialize filename false :: s.trace }
      : Application T).trace = [Event.Scene_Initialize filename false] ++ s.trace := rfl
  exact since_of_trace_eq ht

theorem LoadScene_parse_failure_witness :
    demoEnv.kOctreeLevelMin ≤ 10 ∧ (10 : Int) ≤ demoEnv.kOctreeLevelMax
      ∧ demoEnv.Scene_Initialize "" = none
      ∧ ((LoadScene demoEnv demoLoaded "" 10).m_octree = demoLoaded.m_octree
        ∧ (LoadScene demoEnv demoLoaded "" 10).since demoLoaded
            = [Event.Scene_Initialize "" false]
        ∧ LoadScene demoEnv demoLoaded "" 10
            = { demoLoaded with
                trace := Event.Scene_Initialize "" false :: demoLoaded.trace }) :=
  ⟨by decide, by decide, by decide,
    LoadScene_parse_failure demoEnv demoLoaded "" 10 (by decide) (by decide) (by decide)⟩

/-- C3: with `octree_level` in range and a mesh that parses, `LoadScene` leaves in
`m_octree` a newly allocated object (serial number `heap_next`, hence not the
object held before) whose contents are what `OctreeBuilder::Build`, given
`octree_level`, makes of a default-constructed `Octree` and of the voxelizer that
was initialized with the same `octree_level` and run on the parsed scene; the
calls are made in the order of the source.  (The hypothesis `WF`, that the held
object was allocated earlier, holds in every reachable state: `WF_exec`.) -/
theorem LoadScene_success (env : Env T) (s : Application T)
    (filename : String) (octree_level : Int) (scene : T.Scene)
    (hmin : env.kOctreeLevelMin ≤ octree_level) (hmax : octree_level ≤ env.kOctreeLevelMax)
    (hparse : env.Scene_Initialize filename = some scene) (hwf : s.WF) :
    (LoadScene env s filename octree_level).m_octree
        = some
          { id := s.heap_next
            data := env.OctreeBuilder_Build env.OctreeBuilder_Initialize env.Octree_new
              (env.Voxelizer_Voxelize (env.Voxelizer_Initialize octree_level) scene)
              octree_level }
      ∧ (LoadScene env s filename octree_level).held ≠ s.held
      ∧ (LoadScene env s filename octree_level).since s
          = [Event.Scene_Initialize filename true, Event.Voxelizer_Initialize octree_level,
             Event.Voxelizer_Voxelize, Event.reset_new_Octree s.heap_next,
             Event.OctreeBuilder_Initialize,
             Event.OctreeBuilder_Build s.heap_next octree_level] := by
  have hr : ¬ (octree_level < env.kOctreeLevelMin ∨ octree_level > env.kOctreeLevelMax) := by
    omega
  refine ⟨?_, ?_, ?_⟩
  · simp [LoadScene, hr, hparse, Application.emit, reset_new_Octree, Build]
  · intro h
    have h1 : (LoadScene env s filename octree_level).held = some s.heap_next := by
      simp [LoadScene, hr, hparse, Application.emit, reset_new_Octree, Build,
        Application.held]
    have h2 := hwf s.heap_next (by rw [← h, h1]; rfl)
    omega
  · have e : (LoadScene env s filename octree_level).trace
        = [Event.OctreeBuilder_Build s.heap_next octree_level,
           Event.OctreeBuilder_Initialize, Event.reset_new_Octree s.heap_next,
           Event.Voxelizer_Voxelize, Event.Voxelizer_Initialize octree_level,
           Event.Scene_Initialize filename true] ++ s.trace := by
      simp [LoadScene, hr, hparse, Application.emit, reset_new_Octree, Build]
    rw [since_of_trace_eq e]
    rfl

theorem LoadScene_success_witness :
    demoEnv.kOctreeLevelMin ≤ 9 ∧ (9 : Int) ≤ demoEnv.kOctreeLevelMax
      ∧ demoEnv.Scene_Initialize "bb.obj" = some 6 ∧ demoLoaded.WF
      ∧ ((LoadScene demoEnv demoLoaded "bb.obj" 9).m_octree
            = some
              { id := demoLoaded.heap_next
                data := demoEnv.OctreeBuilder_Build demoEnv.OctreeBuilder_Initialize
                  demoEnv.Octree_new
                  (demoEnv.Voxelizer_Voxelize (demoEnv.Voxelizer_Initialize 9) 6) 9 }
        ∧ (LoadScene demoEnv demoLoaded "bb.obj" 9).held ≠ demoLoaded.held
        ∧ (LoadScene demoEnv demoLoaded "bb.obj" 9).since demoLoaded
            = [Event.Scene_Initialize "bb.obj" true, Event.Voxelizer_Initialize 9,
               Event.Voxelizer_Voxelize, Event.reset_new_Octree demoLoaded.heap_next,
               Event.OctreeBuilder_Initialize,
               Event.OctreeBuilder_Build demoLoaded.heap_next 9]) :=
  ⟨by decide, by decide, by decide, by decide,
    LoadScene_success demoEnv demoLoaded "bb.obj" 9 6 (by decide) (by decide) (by decide)
      (by decide)⟩

theorem mem_built_ids_cons {i : Nat} {tr : List Event} (e : Event)
    (h : i ∈ built_ids tr) : i ∈ built_ids (e :: tr) := by
  unfold built_ids at *
  rw [List.filterMap_cons]
  split
  · exact h
  · exact List.mem_cons_of_mem _ h

theorem Built_emit {s : Application T} (e : Event) (h : s.Built) : (s.emit e).Built := by
  intro i hi
  exact mem_built_ids_cons e (h i hi)

theorem Built_Build (env : Env T) (s : Application T) (b : T.OctreeBuilder)
    (v : T.Voxelizer) (l : Int) : (Build env s b v l).Built := by
  unfold Build
  split
  · intro i hi
    simp [Application.held] at hi
    subst hi
    simp [built_ids, Event.built]
  · rename_i h
    intro i hi
    simp [Application.held, Application.emit, h] at hi

theorem not_Built_of_fresh {s t : Application T} (hu : s.Unused) (d : T.OctreeData)
    (ho : t.m_octree = some { id := s.heap_next, data := d })
    (ht : built_ids t.trace = built_ids s.trace) : ¬ t.Built := by
  intro hb
  have h1 := hb s.heap_next (by simp [Application.held, ho])
  rw [ht] at h1
  exact Nat.lt_irrefl _ (hu _ h1)

theorem held_ne_of_fresh {s t : Application T} (hwf : s.WF) (d : T.OctreeData)
    (ho : t.m_octree = some { id := s.heap_next, data := d }) : t.held ≠ s.held := by
  intro h
  have h1 : t.held = some s.heap_next := by simp [Application.held, ho]
  have h2 := hwf s.heap_next (by rw [← h, h1]; rfl)
  exact Nat.lt_irrefl _ h2

/-- C4 (as the code has it): with a valid level and a mesh that parses, starting
from a state whose octree is built, `LoadScene` passes through seven states.  In
the first four (entry, after `Scene::Initialize`, after the two voxelizer calls)
`m_octree` is the reference held at entry and is built.  Line 63 then points
`m_octree` at a newly allocated, default-constructed `Octree`: in the next two
states (after the reset, after `builder.Initialize`) `m_octree` refers to that
object, on which `Build` has not returned, and no longer to the object held at
entry.  Line 66 builds that object in place: the last state, the one `LoadScene`
returns, holds the same object, built.  The calls made are the six of the source,
in its order; no tracer is called in between.  (The hypotheses `WF` and `Unused`
hold in every reachable state: `WF_exec`, `Unused_exec`.) -/
theorem LoadScene_builds_in_place (env : Env T) (s : Application T)
    (filename : String) (octree_level : Int) (scene : T.Scene)
    (hmin : env.kOctreeLevelMin ≤ octree_level) (hmax : octree_level ≤ env.kOctreeLevelMax)
    (hparse : env.Scene_Initialize filename = some scene)
    (hs : s.Built) (hwf : s.WF) (hu : s.Unused) :
    ∃ t1 t2 t3 t4 t5 t6 : Application T,
      LoadScene_states env s filename octree_level = [s, t1, t2, t3, t4, t5, t6]
        ∧ t6 = LoadScene env s filename octree_level
        ∧ (∀ t ∈ [s, t1, t2, t3], t.m_octree = s.m_octree ∧ t.Built)
        ∧ (∀ t ∈ [t4, t5],
            t.m_octree = some { id := s.heap_next, data := env.Octree_new }
              ∧ ¬ t.Built ∧ t.held ≠ s.held)
        ∧ t6.m_octree
            = some
              { id := s.heap_next
                data := env.OctreeBuilder_Build env.OctreeBuilder_Initialize env.Octree_new
                  (env.Voxelizer_Voxelize (env.Voxelizer_Initialize octree_level) scene)
                  octree_level }
        ∧ t6.Built
        ∧ t4.trace = Event.reset_new_Octree s.heap_next :: t3.trace
        ∧ t6.trace = Event.OctreeBuilder_Build s.heap_next octree_level :: t5.trace
        ∧ t6.since s
            = [Event.Scene_Initialize filename true, Event.Voxelizer_Initialize octree_level,
               Event.Voxelizer_Voxelize, Event.reset_new_Octree s.heap_next,
               Event.OctreeBuilder_Initialize,
               Event.OctreeBuilder_Build s.heap_next octree_level]
        ∧ ∀ e ∈ t6.since s, e.tracer_octree = none ∧ e ≠ Event.PathTracer_Render := by
  have hr : ¬ (octree_level < env.kOctreeLevelMin ∨ octree_level > env.kOctreeLevelMax) := by
    omega
  have e : (LoadScene env s filename octree_level).trace
      = [Event.OctreeBuilder_Build s.heap_next octree_level,
         Event.OctreeBuilder_Initialize, Event.reset_new_Octree s.heap_next,
         Event.Voxelizer_Voxelize, Event.Voxelizer_Initialize octree_level,
         Event.Scene_Initialize filename true] ++ s.trace := by
    simp [LoadScene, hr, hparse, Application.emit, reset_new_Octree, Build]
  refine ⟨s.emit (Event.Scene_Initialize filename true),
    (s.emit (Event.Scene_Initialize filename true)).emit
      (Event.Voxelizer_Initialize octree_level),
    ((s.emit (Event.Scene_Initialize filename true)).emit
      (Event.Voxelizer_Initialize octree_level)).emit Event.Voxelizer_Voxelize,
    reset_new_Octree env (((s.emit (Event.Scene_Initialize filename true)).emit
      (Event.Voxelizer_Initialize octree_level)).emit Event.Voxelizer_Voxelize),
    (reset_new_Octree env (((s.emit (Event.Scene_Initialize filename true)).emit
      (Event.Voxelizer_Initialize octree_level)).emit Event.Voxelizer_Voxelize)).emit
      Event.OctreeBuilder_Initialize,
    LoadScene env s filename octree_level, ?_, rfl, ?_, ?_, ?_, ?_, ?_, ?_, ?_⟩
  · simp [LoadScene_states, LoadScene, hr, hparse]
  · intro t ht
    simp only [List.mem_cons, List.mem_singleton, List.not_mem_nil, or_false] at ht
    rcases ht with rfl | rfl | rfl | rfl
    · exact ⟨rfl, hs⟩
    · exact ⟨rfl, Built_emit _ hs⟩
    · exact ⟨rfl, Built_emit _ (Built_emit _ hs)⟩
    · exact ⟨rfl, Built_emit _ (Built_emit _ (Built_emit _ hs))⟩
  · intro t ht
    simp only [List.mem_cons, List.mem_singleton, List.not_mem_nil, or_false] at ht
    rcases ht with rfl | rfl
    · exact ⟨rfl, not_Built_of_fresh hu env.Octree_new rfl
        (by simp [reset_new_Octree, Application.emit, built_ids, Event.built]),
        held_ne_of_fresh hwf env.Octree_new rfl⟩
    · exact ⟨rfl, not_Built_of_fresh hu env.Octree_new rfl
        (by simp [reset_new_Octree, Application.emit, built_ids, Event.built]),
        held_ne_of_fresh hwf env.Octree_new rfl⟩
  · simp [LoadScene, hr, hparse, Application.emit, reset_new_Octree, Build]
  · simp only [LoadScene, hr, hparse, if_false]
    exact Built_Build _ _ _ _ _
  · rfl
  · simp [LoadScene, hr, hparse, Application.emit, reset_new_Octree, Build]
  · rw [since_of_trace_eq e]
    exact ⟨rfl, by simp [Event.tracer_octree]⟩

/-- C4 refuted as stated: loading a second scene into the concrete application
that holds the built octree number 0, `LoadScene` passes through a state in which
`m_octree` no longer refers to object 0 but to object 1, for which `Build` has not
returned yet. -/
theorem LoadScene_holds_unbuilt_octree :
    demoLoaded.held = some 0 ∧ demoLoaded.Built
      ∧ ∃ t ∈ LoadScene_states demoEnv demoLoaded "bb.obj" 9,
          t.held = some 1 ∧ 1 ∉ built_ids t.trace ∧ ¬ t.Built := by
  decide

/-! ## What `LoadScene` leaves alone -/

theorem LoadScene_frame (env : Env T) (s : Application T) (filename : String)
    (octree_level : Int) :
    LoadScene env s filename octree_level
      = { s with
          m_octree := (LoadScene env s filename octree_level).m_octree
          heap_next := (LoadScene env s filename octree_level).heap_next
          trace := (LoadScene env s filename octree_level).trace } := by
  unfold LoadScene
  split
  · rfl
  · split
    · rfl
    · simp [Build, reset_new_Octree, Application.emit]

@[simp] theorem LoadScene_m_camera (env : Env T) (s : Application T) (f : String) (l : Int) :
    (LoadScene env s f l).m_camera = s.m_camera := by
  rw [LoadScene_frame]

@[simp] theorem LoadScene_m_octree_tracer (env : Env T) (s : Application T) (f : String)
    (l : Int) : (LoadScene env s f l).m_octree_tracer = s.m_octree_tracer := by
  rw [LoadScene_frame]

@[simp] theorem LoadScene_m_pathtracer (env : Env T) (s : Application T) (f : String)
    (l : Int) : (LoadScene env s f l).m_pathtracer = s.m_pathtracer := by
  rw [LoadScene_frame]

@[simp] theorem LoadScene_m_pathtracing_flag (env : Env T) (s : Application T) (f : String)
    (l : Int) : (LoadScene env s f l).m_pathtracing_flag = s.m_pathtracing_flag := by
  rw [LoadScene_frame]

@[simp] theorem LoadScene_m_ui_display_flag (env : Env T) (s : Application T) (f : String)
    (l : Int) : (LoadScene env s f l).m_ui_display_flag = s.m_ui_display_flag := by
  rw [LoadScene_frame]

@[simp] theorem LoadScene_name_buf (env : Env T) (s : Application T) (f : String)
    (l : Int) : (LoadScene env s f l).name_buf = s.name_buf := by
  rw [LoadScene_frame]

@[simp] theorem LoadScene_octree_leve (env : Env T) (s : Application T) (f : String)
    (l : Int) : (LoadScene env s f l).octree_leve = s.octree_leve := by
  rw [LoadScene_frame]

@[simp] theorem LoadScene_exr_name_buf (env : Env T) (s : Application T) (f : String)
    (l : Int) : (LoadScene env s f l).exr_name_buf = s.exr_name_buf := by
  rw [LoadScene_frame]

@[simp] theorem LoadScene_save_as_fp16 (env : Env T) (s : Application T) (f : String)
    (l : Int) : (LoadScene env s f l).save_as_fp16 = s.save_as_fp16 := by
  rw [LoadScene_frame]

theorem LoadScene_builds_in_place_witness :
    demoEnv.kOctreeLevelMin ≤ 9 ∧ (9 : Int) ≤ demoEnv.kOctreeLevelMax
      ∧ demoEnv.Scene_Initialize "bb.obj" = some 6
      ∧ demoLoaded.Built ∧ demoLoaded.WF ∧ demoLoaded.Unused
      ∧ ∃ t1 t2 t3 t4 t5 t6 : Application demoTypes,
          LoadScene_states demoEnv demoLoaded "bb.obj" 9
              = [demoLoaded, t1, t2, t3, t4, t5, t6]
            ∧ t6 = LoadScene demoEnv demoLoaded "bb.obj" 9
            ∧ (∀ t ∈ [demoLoaded, t1, t2, t3], t.m_octree = demoLoaded.m_octree ∧ t.Built)
            ∧ (∀ t ∈ [t4, t5],
                t.m_octree = some { id := demoLoaded.heap_next, data := demoEnv.Octree_new }
                  ∧ ¬ t.Built ∧ t.held ≠ demoLoaded.held)
            ∧ t6.m_octree
                = some
                  { id := demoLoaded.heap_next
                    data := demoEnv.OctreeBuilder_Build demoEnv.OctreeBuilder_Initialize
                      demoEnv.Octree_new
                      (demoEnv.Voxelizer_Voxelize (demoEnv.Voxelizer_Initialize 9) 6) 9 }
            ∧ t6.Built
            ∧ t4.trace = Event.reset_new_Octree demoLoaded.heap_next :: t3.trace
            ∧ t6.trace = Event.OctreeBuilder_Build demoLoaded.heap_next 9 :: t5.trace
            ∧ t6.since demoLoaded
                = [Event.Scene_Initialize "bb.obj" true, Event.Voxelizer_Initialize 9,
                   Event.Voxelizer_Voxelize, Event.reset_new_Octree demoLoaded.heap_next,
                   Event.OctreeBuilder_Initialize,
                   Event.OctreeBuilder_Build demoLoaded.heap_next 9]
            ∧ ∀ e ∈ t6.since demoLoaded,
                e.tracer_octree = none ∧ e ≠ Event.PathTracer_Render :=
  ⟨by decide, by decide, by decide, by decide, by decide, by decide,
    LoadScene_builds_in_place demoEnv demoLoaded "bb.obj" 9 6 (by decide) (by decide)
      (by decide) (by decide) (by decide) (by decide)⟩

/-! ## The file widgets and the modal dialogs -/

theorem ui_file_open_of_fits (buf : String) (n : Nat) (w : FileWidgetInput)
    (h : w.fits n = true) : ∃ r, ui_file_open buf n w = some r := by
  unfold ui_file_open
  unfold FileWidgetInput.fits at h
  cases hb : w.btn
  · simp
  · cases hd : w.dialog with
    | none => simp
    | some f =>
      have hf : f.utf8ByteSize < n := by simpa [hb, hd] using h
      simp [strcpy, hf]

theorem ui_file_save_of_fits (buf : String) (n : Nat) (w : FileWidgetInput)
    (h : w.fits n = true) : ∃ r, ui_file_save buf n w = some r := by
  unfold ui_file_save
  unfold FileWidgetInput.fits at h
  cases hb : w.btn
  · simp
  · cases hd : w.dialog with
    | none => simp
    | some f =>
      have hf : f.utf8ByteSize < n := by simpa [hb, hd] using h
      simp [strcpy, hf]

/-- A dialog result that does not fit the buffer makes `ui_file_open` undefined. -/
theorem ui_file_open_overflow (buf : String) (n : Nat) (w : FileWidgetInput)
    (f : String) (hb : w.btn = true) (hd : w.dialog = some f) (hf : n ≤ f.utf8ByteSize) :
    ui_file_open buf n w = none := by
  have : ¬ f.utf8ByteSize < n := by omega
  simp [ui_file_open, hb, hd, strcpy, this]

theorem ui_load_scene_modal_some {env : Env T} {s t : Application T} {ui : UIInput T}
    (h : ui_load_scene_modal env s ui = some t) :
    (ui.popup_Load_Scene = false ∧ t = s)
      ∨ (ui.popup_Load_Scene = true
        ∧ ∃ buf, t = load_scene_controls env { s with name_buf := buf } ui) := by
  unfold ui_load_scene_modal at h
  split at h
  · rename_i hp
    simp only [Option.map_eq_some'] at h
    obtain ⟨r, _, hr⟩ := h
    exact Or.inr ⟨hp, r.2, hr.symm⟩
  · rename_i hp
    simp only [Option.some.injEq] at h
    exact Or.inl ⟨by simpa using hp, h.symm⟩

theorem ui_export_exr_modal_some {s t : Application T} {ui : UIInput T}
    (h : ui_export_exr_modal s ui = some t) :
    (ui.popup_Export_OpenEXR = false ∧ t = s)
      ∨ (ui.popup_Export_OpenEXR = true
        ∧ ∃ buf, t = export_exr_controls { s with exr_name_buf := buf } ui) := by
  unfold ui_export_exr_modal at h
  split at h
  · rename_i hp
    simp only [Option.map_eq_some'] at h
    obtain ⟨r, _, hr⟩ := h
    exact Or.inr ⟨hp, r.2, hr.symm⟩
  · rename_i hp
    simp only [Option.some.injEq] at h
    exact Or.inl ⟨by simpa using hp, h.symm⟩

theorem ui_main_menubar_some {env : Env T} {s t : Application T} {ui : UIInput T}
    (h : ui_main_menubar env s ui = some t) :
    ∃ m, ui_load_scene_modal env (menubar_popups s ui) ui = some m
      ∧ ui_export_exr_modal m ui = some t := by
  unfold ui_main_menubar at h
  simpa [Option.bind_eq_some] using h

theorem ui_main_some {env : Env T} {s t : Application T} {ui : UIInput T}
    (h : ui_main env s ui = some t) :
    ∃ m, ui_main_menubar env s ui = some m ∧ t = ui_info_overlay m ui := by
  unfold ui_main at h
  simp only [Option.map_eq_some'] at h
  obtain ⟨m, hm, ht⟩ := h
  exact ⟨m, hm, ht.symm⟩

theorem Run_ui_some {env : Env T} {s t : Application T} {ui : UIInput T}
    (h : Run_ui env s ui = some t) :
    (s.m_ui_display_flag = true ∧ ui_main env s ui = some t)
      ∨ (s.m_ui_display_flag = false ∧ t = s) := by
  unfold Run_ui at h
  split at h
  · rename_i hd
    exact Or.inl ⟨hd, h⟩
  · rename_i hd
    simp only [Option.some.injEq] at h
    exact Or.inr ⟨by simpa using hd, h.symm⟩

theorem Run_iteration_some {env : Env T} {s t : Application T} {ui : UIInput T}
    (h : Run_iteration env s ui = some t) :
    ∃ u, Run_ui env s ui = some u
      ∧ t = ui.key_events.foldl glfw_key_callback (Run_render env u ui) := by
  unfold Run_iteration at h
  simp only [Option.map_eq_some'] at h
  obtain ⟨u, hu, ht⟩ := h
  exact ⟨u, hu, ht.symm⟩

theorem Run_iteration_of_Run_ui {env : Env T} {s u : Application T} {ui : UIInput T}
    (h : Run_ui env s ui = some u) :
    Run_iteration env s ui
      = some (ui.key_events.foldl glfw_key_callback (Run_render env u ui)) := by
  unfold Run_iteration
  rw [h]
  rfl

/-- With dialog results that fit, an iteration of the frame loop is defined. -/
theorem Run_iteration_of_fits (env : Env T) (s : Application T) (ui : UIInput T)
    (h : ui.fits = true) : ∃ t, Run_iteration env s ui = some t := by
  simp only [UIInput.fits, Bool.and_eq_true, Bool.or_eq_true, Bool.not_eq_true'] at h
  have h1 : ∀ m : Application T, ∃ a, ui_load_scene_modal env m ui = some a := by
    intro m
    unfold ui_load_scene_modal
    cases hp : ui.popup_Load_Scene
    · simp
    · have hf : ui.file_OBJ.fits kFilenameBufSize = true := by
        rcases h.1 with h1 | h1
        · rw [hp] at h1
          cases h1
        · exact h1
      obtain ⟨r, hr⟩ := ui_file_open_of_fits m.name_buf _ _ hf
      simp [hr]
  have h2 : ∀ m : Application T, ∃ a, ui_export_exr_modal m ui = some a := by
    intro m
    unfold ui_export_exr_modal
    cases hp : ui.popup_Export_OpenEXR
    · simp
    · have hf : ui.file_EXR.fits kFilenameBufSize = true := by
        rcases h.2 with h1 | h1
        · rw [hp] at h1
          cases h1
        · exact h1
      obtain ⟨r, hr⟩ := ui_file_save_of_fits m.exr_name_buf _ _ hf
      simp [hr]
  have h3 : ∃ u, Run_ui env s ui = some u := by
    unfold Run_ui ui_main ui_main_menubar
    split
    · obtain ⟨a, ha⟩ := h1 (menubar_popups s ui)
      obtain ⟨b, hb⟩ := h2 a
      simp [ha, hb]
    · exact ⟨s, rfl⟩
  obtain ⟨u, hu⟩ := h3
  exact ⟨_, Run_iteration_of_Run_ui hu⟩

/-- With dialog results that fit, an execution is defined. -/
theorem exec_of_fits (env : Env T) (s : Application T) (ops : List (Op T))
    (h : ∀ op ∈ ops, op.fits = true) : ∃ t, exec env s ops = some t := by
  induction ops generalizing s with
  | nil => exact ⟨s, rfl⟩
  | cons op ops ih =>
    have h1 : ∃ u, op.run env s = some u := by
      cases op with
      | LoadScene f l => exact ⟨_, rfl⟩
      | frame ui => exact Run_iteration_of_fits env s ui (h (Op.frame ui) (by simp))
    obtain ⟨u, hu⟩ := h1
    obtain ⟨t, ht⟩ := ih u (fun o ho => h o (by simp [ho]))
    exact ⟨t, by simp [exec, hu, ht]⟩

theorem exec_cons_some {env : Env T} {s t : Application T} {op : Op T} {ops : List (Op T)}
    (h : exec env s (op :: ops) = some t) :
    ∃ u, op.run env s = some u ∧ exec env u ops = some t := by
  simpa [exec, Option.bind_eq_some] using h

/-! ## What the modal dialogs and the menubar leave alone -/

theorem export_exr_controls_frame (s : Application T) (ui : UIInput T) :
    export_exr_controls s ui
      = { s with
          save_as_fp16 := (export_exr_controls s ui).save_as_fp16
          trace := (export_exr_controls s ui).trace } := by
  unfold export_exr_controls
  split <;> split <;> rfl

theorem load_scene_controls_frame (env : Env T) (s : Application T) (ui : UIInput T) :
    load_scene_controls env s ui
      = { s with
          octree_leve := (load_scene_controls env s ui).octree_leve
          m_octree := (load_scene_controls env s ui).m_octree
          heap_next := (load_scene_controls env s ui).heap_next
          trace := (load_scene_controls env s ui).trace } := by
  unfold load_scene_controls
  split <;> split <;> simp [Application.emit]

theorem menubar_pathtracing_frame (s : Application T) (ui : UIInput T) :
    menubar_pathtracing s ui
      = { s with
          m_pathtracing_flag := (menubar_pathtracing s ui).m_pathtracing_flag
          m_pathtracer := menubar_Pause_View s.m_pathtracer ui } := by
  unfold menubar_pathtracing
  split <;> rfl

@[simp] theorem export_exr_controls_m_camera (s : Application T) (ui : UIInput T) :
    (export_exr_controls s ui).m_camera = s.m_camera := by
  rw [export_exr_controls_frame]

@[simp] theorem export_exr_controls_m_octree_tracer (s : Application T) (ui : UIInput T) :
    (export_exr_controls s ui).m_octree_tracer = s.m_octree_tracer := by
  rw [export_exr_controls_frame]

@[simp] theorem export_exr_controls_m_pathtracer (s : Application T) (ui : UIInput T) :
    (export_exr_controls s ui).m_pathtracer = s.m_pathtracer := by
  rw [export_exr_controls_frame]

@[simp] theorem export_exr_controls_m_octree (s : Application T) (ui : UIInput T) :
    (export_exr_controls s ui).m_octree = s.m_octree := by
  rw [export_exr_controls_frame]

@[simp] theorem export_exr_controls_m_pathtracing_flag (s : Application T) (ui : UIInput T) :
    (export_exr_controls s ui).m_pathtracing_flag = s.m_pathtracing_flag := by
  rw [export_exr_controls_frame]

@[simp] theorem export_exr_controls_m_ui_display_flag (s : Application T) (ui : UIInput T) :
    (export_exr_controls s ui).m_ui_display_flag = s.m_ui_display_flag := by
  rw [export_exr_controls_frame]

@[simp] theorem export_exr_controls_heap_next (s : Application T) (ui : UIInput T) :
    (export_exr_controls s ui).heap_next = s.heap_next := by
  rw [export_exr_controls_frame]

@[simp] theorem export_exr_controls_name_buf (s : Application T) (ui : UIInput T) :
    (export_exr_controls s ui).name_buf = s.name_buf := by
  rw [export_exr_controls_frame]

@[simp] theorem export_exr_controls_octree_leve (s : Application T) (ui : UIInput T) :
    (export_exr_controls s ui).octree_leve = s.octree_leve := by
  rw [export_exr_controls_frame]

@[simp] theorem export_exr_controls_exr_name_buf (s : Application T) (ui : UIInput T) :
    (export_exr_controls s ui).exr_name_buf = s.exr_name_buf := by
  rw [export_exr_controls_frame]

@[simp] theorem load_scene_controls_m_camera (env : Env T) (s : Application T) (ui : UIInput T) :
    (load_scene_controls env s ui).m_camera = s.m_camera := by
  rw [load_scene_controls_frame]

@[simp] theorem load_scene_controls_m_octree_tracer (env : Env T) (s : Application T) (ui : UIInput T) :
    (load_scene_controls env s ui).m_octree_tracer = s.m_octree_tracer := by
  rw [load_scene_controls_frame]

@[simp] theorem load_scene_controls_m_pathtracer (env : Env T) (s : Application T) (ui : UIInput T) :
    (load_scene_controls env s ui).m_pathtracer = s.m_pathtracer := by
  rw [load_scene_controls_frame]

@[simp] theorem load_scene_controls_m_pathtracing_flag (env : Env T) (s : Application T) (ui : UIInput T) :
    (load_scene_controls env s ui).m_pathtracing_flag = s.m_pathtracing_flag := by
  rw [load_scene_controls_frame]

@[simp] theorem load_scene_controls_m_ui_display_flag (env : Env T) (s : Application T) (ui : UIInput T) :
    (load_scene_controls env s ui).m_ui_display_flag = s.m_ui_display_flag := by
  rw [load_scene_controls_frame]

@[simp] theorem load_scene_controls_name_buf (env : Env T) (s : Application T) (ui : UIInput T) :
    (load_scene_controls env s ui).name_buf = s.name_buf := by
  rw [load_scene_controls_frame]

@[simp] theorem load_scene_controls_exr_name_buf (env : Env T) (s : Application T) (ui : UIInput T) :
    (load_scene_controls env s ui).exr_name_buf = s.exr_name_buf := by
  rw [load_scene_controls_frame]

@[simp] theorem load_scene_controls_save_as_fp16 (env : Env T) (s : Application T) (ui : UIInput T) :
    (load_scene_controls env s ui).save_as_fp16 = s.save_as_fp16 := by
  rw [load_scene_controls_frame]

@[simp] theorem menubar_pathtracing_m_camera (s : Application T) (ui : UIInput T) :
    (menubar_pathtracing s ui).m_camera = s.m_camera := by
  rw [menubar_pathtracing_frame]

@[simp] theorem menubar_pathtracing_m_octree_tracer (s : Application T) (ui : UIInput T) :
    (menubar_pathtracing s ui).m_octree_tracer = s.m_octree_tracer := by
  rw [menubar_pathtracing_frame]

@[simp] theorem menubar_pathtracing_m_octree (s : Application T) (ui : UIInput T) :
    (menubar_pathtracing s ui).m_octree = s.m_octree := by
  rw [menubar_pathtracing_frame]

@[simp] theorem menubar_pathtracing_m_ui_display_flag (s : Application T) (ui : UIInput T) :
    (menubar_pathtracing s ui).m_ui_display_flag = s.m_ui_display_flag := by
  rw [menubar_pathtracing_frame]

@[simp] theorem menubar_pathtracing_heap_next (s : Application T) (ui : UIInput T) :
    (menubar_pathtracing s ui).heap_next = s.heap_next := by
  rw [menubar_pathtracing_frame]

@[simp] theorem menubar_pathtracing_trace (s : Application T) (ui : UIInput T) :
    (menubar_pathtracing s ui).trace = s.trace := by
  rw [menubar_pathtracing_frame]

@[simp] theorem menubar_pathtracing_name_buf (s : Application T) (ui : UIInput T) :
    (menubar_pathtracing s ui).name_buf = s.name_buf := by
  rw [menubar_pathtracing_frame]

@[simp] theorem menubar_pathtracing_octree_leve (s : Application T) (ui : UIInput T) :
    (menubar_pathtracing s ui).octree_leve = s.octree_leve := by
  rw [menubar_pathtracing_frame]

@[simp] theorem menubar_pathtracing_exr_name_buf (s : Application T) (ui : UIInput T) :
    (menubar_pathtracing s ui).exr_name_buf = s.exr_name_buf := by
  rw [menubar_pathtracing_frame]

@[simp] theorem menubar_pathtracing_save_as_fp16 (s : Application T) (ui : UIInput T) :
    (menubar_pathtracing s ui).save_as_fp16 = s.save_as_fp16 := by
  rw [menubar_pathtracing_frame]

theorem menubar_Pause_View_m_bounce (p : PathTracer T) (ui : UIInput T) :
    (menubar_Pause_View p ui).m_bounce = p.m_bounce
      ∧ (menubar_Pause_View p ui).m_sun_radiance = p.m_sun_radiance := by
  unfold menubar_Pause_View
  split
  · split <;> split <;> split <;> exact ⟨rfl, rfl⟩
  · exact ⟨rfl, rfl⟩

theorem ui_export_exr_modal_frame {s t : Application T} {ui : UIInput T}
    (h : ui_export_exr_modal s ui = some t) :
    t = { s with exr_name_buf := t.exr_name_buf, save_as_fp16 := t.save_as_fp16,
                 trace := t.trace }
      ∧ (ui.popup_Export_OpenEXR = false → t = s) := by
  rcases ui_export_exr_modal_some h with ⟨hp, rfl⟩ | ⟨hp, buf, rfl⟩
  · exact ⟨rfl, fun _ => rfl⟩
  · refine ⟨?_, fun hc => ?_⟩
    · rw [export_exr_controls_frame]
    · rw [hp] at hc
      cases hc

theorem ui_load_scene_modal_frame {env : Env T} {s t : Application T} {ui : UIInput T}
    (h : ui_load_scene_modal env s ui = some t) :
    t = { s with name_buf := t.name_buf, octree_leve := t.octree_leve,
                 m_octree := t.m_octree, heap_next := t.heap_next, trace := t.trace }
      ∧ (ui.popup_Load_Scene = false → t = s) := by
  rcases ui_load_scene_modal_some h with ⟨hp, rfl⟩ | ⟨hp, buf, rfl⟩
  · exact ⟨rfl, fun _ => rfl⟩
  · refine ⟨?_, fun hc => ?_⟩
    · rw [load_scene_controls_frame]
    · rw [hp] at hc
      cases hc

theorem ui_export_exr_modal_m_pathtracing_flag {s t : Application T} {ui : UIInput T}
    (h : ui_export_exr_modal s ui = some t) :
    t.m_pathtracing_flag = s.m_pathtracing_flag := by
  rw [(ui_export_exr_modal_frame h).1]

theorem ui_load_scene_modal_m_pathtracing_flag {env : Env T} {s t : Application T}
    {ui : UIInput T} (h : ui_load_scene_modal env s ui = some t) :
    t.m_pathtracing_flag = s.m_pathtracing_flag := by
  rw [(ui_load_scene_modal_frame h).1]

theorem ite_emit_m_pathtracing_flag (c : Prop) [Decidable c] (s : Application T) (e : Event) :
    (if c then s.emit e else s).m_pathtracing_flag = s.m_pathtracing_flag := by
  split <;> rfl

theorem menubar_popups_m_pathtracing_flag (s : Application T) (ui : UIInput T) :
    (menubar_popups s ui).m_pathtracing_flag = (menubar s ui).m_pathtracing_flag := by
  unfold menubar_popups
  simp only
  rw [ite_emit_m_pathtracing_flag, ite_emit_m_pathtracing_flag]

/-! ## The menubar while path tracing -/

theorem menubar_while_pathtracing (s : Application T) (ui : UIInput T)
    (hflag : s.m_pathtracing_flag = true) :
    menubar s ui
        = { s with m_pathtracing_flag := (menubar s ui).m_pathtracing_flag,
                   m_pathtracer := (menubar s ui).m_pathtracer }
      ∧ (menubar s ui).m_pathtracer.m_bounce = s.m_pathtracer.m_bounce
      ∧ (menubar s ui).m_pathtracer.m_sun_radiance = s.m_pathtracer.m_sun_radiance
      ∧ ((menubar s ui).m_pathtracing_flag = true
          ∨ (ui.btn_Exit_PT = true ∧ (menubar s ui).m_pathtracing_flag = false)) := by
  unfold menubar
  simp only [hflag, Bool.not_true, Bool.false_eq_true, if_false]
  split
  · refine ⟨?_, ?_, ?_, ?_⟩
    · rw [menubar_pathtracing_frame]
    · rw [menubar_pathtracing_frame]
      exact (menubar_Pause_View_m_bounce _ ui).1
    · rw [menubar_pathtracing_frame]
      exact (menubar_Pause_View_m_bounce _ ui).2
    · unfold menubar_pathtracing
      by_cases hx : ui.btn_Exit_PT = true
      · simp [hx]
      · simp [hx, hflag]
  · exact ⟨rfl, rfl, rfl, Or.inl hflag⟩

theorem menubar_popups_while_pathtracing (s : Application T) (ui : UIInput T)
    (hflag : s.m_pathtracing_flag = true) :
    menubar_popups s ui
        = { s with m_pathtracing_flag := (menubar s ui).m_pathtracing_flag,
                   m_pathtracer := (menubar s ui).m_pathtracer,
                   trace := (menubar_popups s ui).trace } := by
  have h := (menubar_while_pathtracing s ui hflag).1
  unfold menubar_popups
  simp only
  generalize menubar s ui = m at h ⊢
  cases m
  simp only [Application.mk.injEq, true_and, and_true] at h
  split <;> split <;> simp [Application.emit, h]

/-- C10 (as the code has it): in a frame that enters `ui_main_menubar` with
`m_pathtracing_flag` true and in which the modal `Load Scene` is not shown (it is
only opened while the flag is false), the controls `Load Scene`, `Start PT`,
`Camera`, `Primary View`, `Beam Optimization` and `Path Tracer` are not consulted
(the result does not depend on them), and the camera, the octree tracer, the path
tracer's bounce count and sun radiance, the held octree, the UI display flag and the
statics of the modal `Load Scene` are left as they were.  The flag can only be
cleared, and only by `Exit PT`.  Besides the flag and the path tracer's pause flag
and view type, the step can modify the statics `exr_name_buf` and `save_as_fp16`
of the export modal, and only when that modal is shown. -/
theorem ui_main_menubar_while_pathtracing (env : Env T) (s t : Application T)
    (ui : UIInput T) (hflag : s.m_pathtracing_flag = true)
    (hpop : ui.popup_Load_Scene = false) (ht : ui_main_menubar env s ui = some t) :
    (∀ other : UIInput T, ui_main_menubar env s (ui.with_idle_controls other) = some t)
      ∧ t.m_camera = s.m_camera
      ∧ t.m_octree_tracer = s.m_octree_tracer
      ∧ t.m_pathtracer.m_bounce = s.m_pathtracer.m_bounce
      ∧ t.m_pathtracer.m_sun_radiance = s.m_pathtracer.m_sun_radiance
      ∧ t.m_octree = s.m_octree
      ∧ t.m_ui_display_flag = s.m_ui_display_flag
      ∧ t.name_buf = s.name_buf ∧ t.octree_leve = s.octree_leve
      ∧ (t.m_pathtracing_flag = true
          ∨ (ui.btn_Exit_PT = true ∧ t.m_pathtracing_flag = false))
      ∧ (ui.popup_Export_OpenEXR = false
          → t.exr_name_buf = s.exr_name_buf ∧ t.save_as_fp16 = s.save_as_fp16) := by
  have hind : ∀ other : UIInput T,
      ui_main_menubar env s (ui.with_idle_controls other) = ui_main_menubar env s ui := by
    intro other
    simp [ui_main_menubar, menubar_popups, menubar, hflag, UIInput.with_idle_controls,
      menubar_pathtracing, menubar_Pause_View, ui_load_scene_modal, ui_export_exr_modal,
      load_scene_controls, export_exr_controls]
  obtain ⟨m, hm, hx⟩ := ui_main_menubar_some ht
  have hm2 : m = menubar_popups s ui := (ui_load_scene_modal_frame hm).2 hpop
  subst hm2
  obtain ⟨hb, hsun, hbounce, hf⟩ := menubar_while_pathtracing s ui hflag
  have hmp := menubar_popups_while_pathtracing s ui hflag
  obtain ⟨hfr, hnot⟩ := ui_export_exr_modal_frame hx
  have hflag2 : t.m_pathtracing_flag = (menubar s ui).m_pathtracing_flag := by
    rw [ui_export_exr_modal_m_pathtracing_flag hx, menubar_popups_m_pathtracing_flag]
  have hpt : t.m_pathtracer = (menubar s ui).m_pathtracer := by
    rw [hfr, hmp]
  refine ⟨fun other => by rw [hind other, ht], ?_, ?_, ?_, ?_, ?_, ?_, ?_, ?_, ?_, ?_⟩
  · rw [hfr, hmp]
  · rw [hfr, hmp]
  · rw [hpt]; exact hsun
  · rw [hpt]; exact hbounce
  · rw [hfr, hmp]
  · rw [hfr, hmp]
  · rw [hfr, hmp]
  · rw [hfr, hmp]
  · rw [hflag2]; exact hf
  · intro hc
    rw [hnot hc, hmp]
    exact ⟨rfl, rfl⟩

theorem ui_main_menubar_while_pathtracing_witness :
    demoPathTracing.m_pathtracing_flag = true
      ∧ demoFrame_Exit_PT.popup_Load_Scene = false
      ∧ ui_main_menubar demoEnv demoPathTracing demoFrame_Exit_PT
          = some { demoPathTracing with m_pathtracing_flag := false }
      ∧ ((∀ other : UIInput demoTypes,
            ui_main_menubar demoEnv demoPathTracing
                (demoFrame_Exit_PT.with_idle_controls other)
              = some { demoPathTracing with m_pathtracing_flag := false })
        ∧ ({ demoPathTracing with m_pathtracing_flag := false }
            : Application demoTypes).m_camera = demoPathTracing.m_camera
        ∧ ({ demoPathTracing with m_pathtracing_flag := false }
            : Application demoTypes).m_octree_tracer = demoPathTracing.m_octree_tracer
        ∧ ({ demoPathTracing with m_pathtracing_flag := false }
            : Application demoTypes).m_pathtracer.m_bounce
            = demoPathTracing.m_pathtracer.m_bounce
        ∧ ({ demoPathTracing with m_pathtracing_flag := false }
            : Application demoTypes).m_pathtracer.m_sun_radiance
            = demoPathTracing.m_pathtracer.m_sun_radiance
        ∧ ({ demoPathTracing with m_pathtracing_flag := false }
            : Application demoTypes).m_octree = demoPathTracing.m_octree
        ∧ ({ demoPathTracing with m_pathtracing_flag := false }
            : Application demoTypes).m_ui_display_flag = demoPathTracing.m_ui_display_flag
        ∧ ({ demoPathTracing with m_pathtracing_flag := false }
            : Application demoTypes).name_buf = demoPathTracing.name_buf
        ∧ ({ demoPathTracing with m_pathtracing_flag := false }
            : Application demoTypes).octree_leve = demoPathTracing.octree_leve
        ∧ (({ demoPathTracing with m_pathtracing_flag := false }
              : Application demoTypes).m_pathtracing_flag = true
            ∨ (demoFrame_Exit_PT.btn_Exit_PT = true
              ∧ ({ demoPathTracing with m_pathtracing_flag := false }
                  : Application demoTypes).m_pathtracing_flag = false))
        ∧ (demoFrame_Exit_PT.popup_Export_OpenEXR = false
            → ({ demoPathTracing with m_pathtracing_flag := false }
                  : Application demoTypes).exr_name_buf = demoPathTracing.exr_name_buf
              ∧ ({ demoPathTracing with m_pathtracing_flag := false }
                  : Application demoTypes).save_as_fp16 = demoPathTracing.save_as_fp16)) :=
  ⟨by decide, by decide, by rfl,
    ui_main_menubar_while_pathtracing demoEnv demoPathTracing _ demoFrame_Exit_PT
      (by decide) (by decide) (by rfl)⟩

/-- C10 refuted as stated: the scene is loaded and path tracing started through
the UI, and `Export OpenEXR` is pressed, which opens the export modal.  In the
next frame `m_pathtracing_flag` is true at the start of `ui_main_menubar`, the user
ticks `Export As FP16`, and the menubar step changes the static `save_as_fp16`,
which is none of the flag, the pause flag and the path tracer's view type. -/
theorem ui_main_menubar_modifies_more_while_pathtracing :
    exec demoEnv demoApp demoPathTracingOps = some demoPathTracing
      ∧ exec demoEnv demoPathTracing [Op.frame demoFrame_open_export] = some demoExporting
      ∧ demoExporting.m_pathtracing_flag = true
      ∧ demoExporting.save_as_fp16 = false
      ∧ (ui_main_menubar demoEnv demoExporting demoFrame_tick_FP16).map
          Application.save_as_fp16 = some true :=
  ⟨rfl, rfl, by decide, by decide, by decide⟩

/-! ## Summaries of the UI functions -/

theorem Logs.logs_refl (P : Event → Prop) (s : Application T) : Logs P s s :=
  ⟨[], rfl, by simp⟩

theorem Logs.of_trace_eq {P : Event → Prop} {s t : Application T}
    (h : t.trace = s.trace) : Logs P s t :=
  ⟨[], by simpa using h, by simp⟩

theorem Logs.logs_trans {P : Event → Prop} {s t u : Application T}
    (h1 : Logs P s t) (h2 : Logs P t u) : Logs P s u := by
  obtain ⟨e1, he1, hp1⟩ := h1
  obtain ⟨e2, he2, hp2⟩ := h2
  refine ⟨e2 ++ e1, by rw [he2, he1, List.append_assoc], ?_⟩
  intro e he
  rcases List.mem_append.1 he with h | h
  · exact hp2 e h
  · exact hp1 e h

theorem Logs.mono {P Q : Event → Prop} {s t : Application T}
    (h : Logs P s t) (hpq : ∀ e, P e → Q e) : Logs Q s t := by
  obtain ⟨evs, he, hp⟩ := h
  exact ⟨evs, he, fun e h => hpq e (hp e h)⟩

theorem Logs.logs_emit {P : Event → Prop} (s : Application T) {e : Event} (h : P e) :
    Logs P s (s.emit e) :=
  ⟨[e], rfl, by simpa using h⟩

theorem Logs.since {P : Event → Prop} {s t : Application T} (h : Logs P s t) :
    ∀ e ∈ t.since s, P e := by
  obtain ⟨evs, he, hp⟩ := h
  rw [since_of_trace_eq he]
  intro e hmem
  exact hp e (List.mem_reverse.1 hmem)

theorem Event.ui_ok_mono {b : Bool} {e : Event} (h : e.ui_ok b = true) :
    e.ui_ok true = true := by
  cases e <;> simp_all [Event.ui_ok]

theorem Event.ui_ok_not_frame_call {b : Bool} {e : Event} (h : e.ui_ok b = true) :
    e.is_frame_call = false := by
  cases e <;> simp_all [Event.ui_ok, Event.is_frame_call]

theorem Event.ui_ok_false_not_deref {e : Event} (h : e.ui_ok false = true) :
    e.derefs_octree = false := by
  cases e <;> simp_all [Event.ui_ok, Event.derefs_octree]

theorem UIStep.refl (s : Application T) : UIStep s s :=
  ⟨id, Logs.logs_refl _ s⟩

theorem UIStep.trans {s t u : Application T} (h1 : UIStep s t) (h2 : UIStep t u) :
    UIStep s u := by
  refine ⟨fun h => h2.1 (h1.1 h), Logs.logs_trans (h1.2.mono ?_) h2.2⟩
  intro e he
  cases hu : u.m_octree.isSome
  · cases ht : t.m_octree.isSome
    · simpa [ht] using he
    · have := h2.1 ht
      simp [hu] at this
  · exact Event.ui_ok_mono he

theorem UIStep.of_eq {s t : Application T} (ho : t.m_octree = s.m_octree)
    (ht : t.trace = s.trace) : UIStep s t :=
  ⟨fun h => by rw [ho]; exact h, Logs.of_trace_eq ht⟩

theorem UIStep.emit (s : Application T) {e : Event}
    (h : e.ui_ok s.m_octree.isSome = true) : UIStep s (s.emit e) :=
  ⟨id, Logs.logs_emit s h⟩

theorem UIStep_LoadScene (env : Env T) (s : Application T) (f : String) (l : Int) :
    UIStep s (LoadScene env s f l) := by
  unfold LoadScene
  split
  · exact UIStep.refl s
  · split
    · exact UIStep.emit s rfl
    · refine ⟨fun _ => by simp [Build, reset_new_Octree, Application.emit], ?_⟩
      refine ⟨[Event.OctreeBuilder_Build s.heap_next l,
           Event.OctreeBuilder_Initialize, Event.reset_new_Octree s.heap_next,
           Event.Voxelizer_Voxelize, Event.Voxelizer_Initialize l,
           Event.Scene_Initialize f true], ?_, ?_⟩
      · simp [Build, reset_new_Octree, Application.emit]
      · simp [Event.ui_ok]

theorem UIStep_menubar_Start_PT (s : Application T) (ui : UIInput T) :
    UIStep s (menubar_Start_PT s ui) := by
  unfold menubar_Start_PT
  split
  · rename_i h
    simp only [Bool.and_eq_true] at h
    cases ho : s.m_octree with
    | none => simp [ho] at h
    | some o =>
      refine ⟨fun _ => by simp [Application.deref, Application.emit, ho], ?_⟩
      refine ⟨[Event.PathTracer_Prepare o.id], ?_, ?_⟩
      · simp [Application.deref, Application.emit, ho]
      · simp [Application.deref, Application.emit, ho, Event.ui_ok]
  · exact UIStep.refl s

theorem writes_ui_ok {α : Type} (o : Option α) (b : Bool) :
    ∀ e ∈ writes o, e.ui_ok b = true := by
  cases o <;> simp [writes, Event.ui_ok]

theorem UIStep_menubar_Camera (s : Application T) (ui : UIInput T) :
    UIStep s (menubar_Camera s ui) := by
  unfold menubar_Camera
  split
  · refine ⟨fun h => by simpa [Application.emits] using h, ?_⟩
    refine ⟨_, rfl, ?_⟩
    intro e he
    simp only [List.mem_reverse, List.mem_append] at he
    rcases he with (((h | h) | h) | h) | h <;> exact writes_ui_ok _ _ e h
  · exact UIStep.refl s

theorem UIStep_menubar (s : Application T) (ui : UIInput T) : UIStep s (menubar s ui) := by
  unfold menubar
  split
  · exact ((UIStep_menubar_Start_PT s ui).trans (UIStep_menubar_Camera _ ui)).trans
      (UIStep.of_eq rfl rfl)
  · split
    · exact UIStep.of_eq (by simp) (by simp)
    · exact UIStep.refl s

theorem UIStep.emit_plain (s : Application T) {e : Event}
    (h : e.ui_ok false = true) : UIStep s (s.emit e) :=
  UIStep.emit s (by cases hs : s.m_octree.isSome <;> simp_all [Event.ui_ok_mono h])

theorem UIStep_ite_emit (c : Prop) [Decidable c] (s : Application T) (e : Event)
    (h : e.ui_ok false = true) : UIStep s (if c then s.emit e else s) := by
  split
  · exact UIStep.emit_plain s h
  · exact UIStep.refl s

theorem UIStep_load_scene_controls (env : Env T) (s : Application T) (ui : UIInput T) :
    UIStep s (load_scene_controls env s ui) := by
  unfold load_scene_controls
  refine UIStep.trans (t := { s with
      octree_leve := edit s.octree_leve ui.drag_Octree_Level }) (UIStep.of_eq rfl rfl) ?_
  refine UIStep.trans ?_ (UIStep_ite_emit _ _ _ (by rfl))
  split
  · exact (UIStep_LoadScene env _ _ _).trans (UIStep.emit_plain _ (by rfl))
  · exact UIStep.refl _

theorem UIStep_export_exr_controls (s : Application T) (ui : UIInput T) :
    UIStep s (export_exr_controls s ui) := by
  unfold export_exr_controls
  refine UIStep.trans (t := { s with
      save_as_fp16 := edit s.save_as_fp16 ui.chk_FP16 }) (UIStep.of_eq rfl rfl) ?_
  refine UIStep.trans ?_ (UIStep_ite_emit _ _ _ (by rfl))
  split
  · exact (UIStep.emit_plain _ (by rfl)).trans (UIStep.emit_plain _ (by rfl))
  · exact UIStep.refl _

theorem UIStep_ui_load_scene_modal {env : Env T} {s t : Application T} {ui : UIInput T}
    (h : ui_load_scene_modal env s ui = some t) : UIStep s t := by
  rcases ui_load_scene_modal_some h with ⟨_, rfl⟩ | ⟨_, buf, rfl⟩
  · exact UIStep.refl _
  · exact UIStep.trans (t := { s with name_buf := buf }) (UIStep.of_eq rfl rfl)
      (UIStep_load_scene_controls env _ ui)

theorem UIStep_ui_export_exr_modal {s t : Application T} {ui : UIInput T}
    (h : ui_export_exr_modal s ui = some t) : UIStep s t := by
  rcases ui_export_exr_modal_some h with ⟨_, rfl⟩ | ⟨_, buf, rfl⟩
  · exact UIStep.refl _
  · exact UIStep.trans (t := { s with exr_name_buf := buf }) (UIStep.of_eq rfl rfl)
      (UIStep_export_exr_controls _ ui)

theorem UIStep_popups_after_menubar (s : Application T) (ui : UIInput T) :
    UIStep (menubar s ui) (menubar_popups s ui) := by
  unfold menubar_popups
  simp only
  generalize menubar s ui = m
  exact (UIStep_ite_emit _ m _ (by rfl)).trans (UIStep_ite_emit _ _ _ (by rfl))

theorem UIStep_menubar_popups (s : Application T) (ui : UIInput T) :
    UIStep s (menubar_popups s ui) :=
  (UIStep_menubar s ui).trans (UIStep_popups_after_menubar s ui)

theorem UIStep_ui_main_menubar {env : Env T} {s t : Application T} {ui : UIInput T}
    (h : ui_main_menubar env s ui = some t) : UIStep s t := by
  obtain ⟨m, hm, hx⟩ := ui_main_menubar_some h
  exact ((UIStep_menubar_popups s ui).trans (UIStep_ui_load_scene_modal hm)).trans
    (UIStep_ui_export_exr_modal hx)

theorem UIStep_ui_info_overlay (s : Application T) (ui : UIInput T) :
    UIStep s (ui_info_overlay s ui) := by
  unfold ui_info_overlay
  split
  · split
    · rename_i h
      cases ho : s.m_octree with
      | none => simp [ho] at h
      | some o =>
        simp only [Application.deref, ho]
        exact UIStep.emit s (by simp [ho, Event.ui_ok])
    · exact UIStep.refl s
  · exact UIStep.refl s

theorem UIStep_Run_ui {env : Env T} {s t : Application T} {ui : UIInput T}
    (h : Run_ui env s ui = some t) : UIStep s t := by
  rcases Run_ui_some h with ⟨_, hm⟩ | ⟨_, rfl⟩
  · obtain ⟨m, hm2, rfl⟩ := ui_main_some hm
    exact (UIStep_ui_main_menubar hm2).trans (UIStep_ui_info_overlay _ ui)
  · exact UIStep.refl _

/-! ## One iteration of the frame loop -/

theorem Run_eq_exec (env : Env T) (s : Application T) (frames : List (UIInput T)) :
    Run env s frames = exec env s (frames.map Op.frame) := by
  induction frames generalizing s with
  | nil => rfl
  | cons ui frames ih =>
    simp only [Run, List.map_cons, exec, Op.run]
    congr 1
    funext u
    exact ih u

theorem poll_frame (s : Application T) (ks : List KeyEvent) :
    ks.foldl glfw_key_callback s
      = { s with m_ui_display_flag := (ks.foldl glfw_key_callback s).m_ui_display_flag } := by
  induction ks generalizing s with
  | nil => rfl
  | cons k ks ih =>
    rw [List.foldl_cons, ih]
    unfold glfw_key_callback
    split
    · split <;> rfl
    · rfl

theorem Run_render_m_octree (env : Env T) (u : Application T) (ui : UIInput T) :
    (Run_render env u ui).m_octree = u.m_octree
      ∧ (Run_render env u ui).m_pathtracing_flag = u.m_pathtracing_flag
      ∧ (Run_render env u ui).heap_next = u.heap_next := by
  unfold Run_render
  split
  · split
    · exact ⟨rfl, rfl, rfl⟩
    · cases h : u.m_octree <;> simp [Application.deref, Application.emit, h]
  · exact ⟨rfl, rfl, rfl⟩

theorem Run_iteration_m_octree {env : Env T} {s t u : Application T} {ui : UIInput T}
    (hu : Run_ui env s ui = some u) (ht : Run_iteration env s ui = some t) :
    t.trace = (Run_render env u ui).trace ∧ t.m_octree = u.m_octree
      ∧ t.m_pathtracing_flag = u.m_pathtracing_flag := by
  rw [Run_iteration_of_Run_ui hu] at ht
  simp only [Option.some.injEq] at ht
  subst ht
  rw [poll_frame]
  exact ⟨rfl, (Run_render_m_octree env u ui).1, (Run_render_m_octree env u ui).2.1⟩

theorem filter_frame_call_of_ui_ok {b : Bool} (evs : List Event)
    (h : ∀ e ∈ evs, e.ui_ok b = true) : evs.filter Event.is_frame_call = [] := by
  rw [List.filter_eq_nil_iff]
  intro e he
  simp [Event.ui_ok_not_frame_call (h e he)]

/-- C6: in an iteration of the frame loop in which an octree is held when `Run`
tests `m_octree` (line 89, after the UI has run, state `u`): if
`m_pathtracing_flag` is then true, of the four calls `Camera::Control`,
`Camera::Update`, `OctreeTracer::Render` and `PathTracer::Render` the iteration
makes exactly one, `PathTracer::Render`; if it is false, the iteration makes
exactly `Camera::Control`, `Camera::Update` and `OctreeTracer::Render` (on the held
octree), once each and in that order, and no `PathTracer::Render`.  (The UI part
being defined, that is, no file name overflowing its buffer, the iteration is.) -/
theorem Run_iteration_render_calls (env : Env T) (s u : Application T) (ui : UIInput T)
    (o : Octree T) (hu : Run_ui env s ui = some u) (ho : u.m_octree = some o) :
    ∃ t, Run_iteration env s ui = some t
      ∧ (t.since s).filter Event.is_frame_call
        = if u.m_pathtracing_flag = true then [Event.PathTracer_Render]
          else [Event.Camera_Control, Event.Camera_Update,
            Event.OctreeTracer_Render o.id] := by
  refine ⟨_, Run_iteration_of_Run_ui hu, ?_⟩
  have htr := (Run_iteration_m_octree hu (Run_iteration_of_Run_ui hu)).1
  obtain ⟨evs, he, hp⟩ := (UIStep_Run_ui hu).2
  have hf := filter_frame_call_of_ui_ok evs hp
  by_cases hflag : u.m_pathtracing_flag = true
  · have e : (ui.key_events.foldl glfw_key_callback (Run_render env u ui)).trace
        = (Event.PathTracer_Render :: evs) ++ s.trace := by
      rw [htr]
      simp [Run_render, ho, hflag, Application.emit, he]
    rw [since_of_trace_eq e, if_pos hflag]
    simp [List.filter_append, List.filter_reverse, hf, Event.is_frame_call]
  · have e : (ui.key_events.foldl glfw_key_callback (Run_render env u ui)).trace
        = (Event.OctreeTracer_Render o.id :: Event.Camera_Update :: Event.Camera_Control
            :: evs) ++ s.trace := by
      rw [htr]
      simp [Run_render, ho, hflag, Application.emit, Application.deref, he]
    rw [since_of_trace_eq e, if_neg hflag]
    simp [List.filter_append, List.filter_reverse, hf, Event.is_frame_call]

theorem Run_iteration_render_calls_witness :
    Run_ui demoEnv demoLoaded demoFrame_Start_PT = some demoStarted
      ∧ demoStarted.m_octree = some { id := 0, data := 16 }
      ∧ ∃ t, Run_iteration demoEnv demoLoaded demoFrame_Start_PT = some t
        ∧ (t.since demoLoaded).filter Event.is_frame_call
          = if demoStarted.m_pathtracing_flag = true then [Event.PathTracer_Render]
            else [Event.Camera_Control, Event.Camera_Update,
              Event.OctreeTracer_Render (Octree.id (T := demoTypes) { id := 0, data := 16 })] :=
  ⟨by rfl, by rfl,
    Run_iteration_render_calls demoEnv demoLoaded demoStarted demoFrame_Start_PT
      { id := 0, data := 16 } (by rfl) (by rfl)⟩

/-- C7: in an iteration of the frame loop in which `m_octree` is null when `Run`
tests it (line 89, after the UI has run, state `u`) - it then was null from the
start of the iteration and still is at its end - no `OctreeTracer::Render` and no
`PathTracer::Render` is made and `m_octree` is not dereferenced (no `Prepare`, no
`GetLevel`, no dereference of the null pointer), whatever `m_pathtracing_flag`
is.  (The UI part being defined, the iteration is.) -/
theorem Run_iteration_without_octree (env : Env T) (s u : Application T) (ui : UIInput T)
    (hu : Run_ui env s ui = some u) (h : u.m_octree = none) :
    s.m_octree = none
      ∧ ∃ t, Run_iteration env s ui = some t ∧ t.m_octree = none
        ∧ ∀ e ∈ t.since s,
            e ≠ Event.PathTracer_Render ∧ (∀ i, e ≠ Event.OctreeTracer_Render i)
              ∧ e.derefs_octree = false := by
  have hstep := UIStep_Run_ui hu
  have hit := Run_iteration_m_octree hu (Run_iteration_of_Run_ui hu)
  refine ⟨?_, _, Run_iteration_of_Run_ui hu, by rw [hit.2.1, h], ?_⟩
  · cases hs : s.m_octree with
    | none => rfl
    | some o =>
      have := hstep.1 (by simp [hs])
      simp [h] at this
  · have e : (ui.key_events.foldl glfw_key_callback (Run_render env u ui)).trace
        = u.trace := by
      rw [hit.1]
      simp [Run_render, h]
    have hl : Logs (fun e => e.ui_ok false = true) s
        (ui.key_events.foldl glfw_key_callback (Run_render env u ui)) := by
      obtain ⟨evs, he, hp⟩ := hstep.2
      exact ⟨evs, by rw [e, he], by simpa [h] using hp⟩
    intro ev hev
    have hok := hl.since ev hev
    refine ⟨?_, ?_, Event.ui_ok_false_not_deref hok⟩
    · intro hc
      rw [hc] at hok
      simp [Event.ui_ok] at hok
    · intro i hc
      rw [hc] at hok
      simp [Event.ui_ok] at hok

theorem Run_iteration_without_octree_witness :
    Run_ui demoEnv demoApp demoFrame_Start_PT = some demoNotStarted
      ∧ demoNotStarted.m_octree = none
      ∧ (demoApp.m_octree = none
        ∧ ∃ t, Run_iteration demoEnv demoApp demoFrame_Start_PT = some t
          ∧ t.m_octree = none
          ∧ ∀ e ∈ t.since demoApp,
              e ≠ Event.PathTracer_Render ∧ (∀ i, e ≠ Event.OctreeTracer_Render i)
                ∧ e.derefs_octree = false) :=
  ⟨by rfl, by rfl,
    Run_iteration_without_octree demoEnv demoApp demoNotStarted demoFrame_Start_PT
      (by rfl) (by rfl)⟩

/-! ## The invariant -/

theorem Inv_constructed (cam : Camera T) (ot : OctreeTracer T) (pt : PathTracer T)
    (d : Bool) : (Application.constructed cam ot pt d).Inv := by
  refine ⟨trivial, ?_, ?_, ?_⟩
  · intro i hi
    simp [Application.held, Application.constructed] at hi
  · intro h
    simp [Application.constructed] at h
  · simp [Application.constructed]

theorem Inv_emit {s : Application T} (h : s.Inv) (e : Event)
    (h1 : e.tracer_octree = none) (h2 : e ≠ Event.null_dereference) : (s.emit e).Inv := by
  obtain ⟨ht, hb, hf, hn⟩ := h
  refine ⟨⟨by simp [h1], ht⟩, Built_emit e hb, hf, ?_⟩
  simp only [Application.emit, List.mem_cons, not_or]
  exact ⟨fun hc => h2 hc.symm, hn⟩

theorem Inv_of_eq {s t : Application T} (h : s.Inv) (htr : t.trace = s.trace)
    (ho : t.m_octree = s.m_octree)
    (hf : t.m_pathtracing_flag = true → s.m_pathtracing_flag = true) : t.Inv := by
  obtain ⟨ht, hb, hfl, hn⟩ := h
  refine ⟨by rw [htr]; exact ht, ?_, ?_, by rw [htr]; exact hn⟩
  · intro i hi
    rw [htr]
    exact hb i (by simpa [Application.held, ho] using hi)
  · intro hflag
    rw [ho]
    exact hfl (hf hflag)

theorem Inv_ite_emit {s : Application T} (h : s.Inv) (c : Prop) [Decidable c] (e : Event)
    (h1 : e.tracer_octree = none) (h2 : e ≠ Event.null_dereference) :
    (if c then s.emit e else s).Inv := by
  split
  · exact Inv_emit h e h1 h2
  · exact h

theorem Inv_LoadScene (env : Env T) {s : Application T} (h : s.Inv) (f : String) (l : Int) :
    (LoadScene env s f l).Inv := by
  unfold LoadScene
  split
  · exact h
  · split
    · exact Inv_emit h _ (by rfl) (by simp)
    · obtain ⟨ht, hb, hfl, hn⟩ := h
      refine ⟨?_, Built_Build _ _ _ _ _, ?_, ?_⟩
      · simp [Build, reset_new_Octree, Application.emit, TraceBuilt, Event.tracer_octree, ht]
      · intro _
        simp [Build, reset_new_Octree, Application.emit]
      · simp [Build, reset_new_Octree, Application.emit, hn]

theorem Inv_menubar_Start_PT {s : Application T} (h : s.Inv) (ui : UIInput T) :
    (menubar_Start_PT s ui).Inv := by
  unfold menubar_Start_PT
  split
  · rename_i hc
    simp only [Bool.and_eq_true] at hc
    cases ho : s.m_octree with
    | none => simp [ho] at hc
    | some o =>
      obtain ⟨ht, hb, hfl, hn⟩ := h
      have hbo : o.id ∈ built_ids s.trace := hb o.id (by simp [Application.held, ho])
      refine ⟨?_, ?_, ?_, ?_⟩
      · simp [Application.deref, Application.emit, ho, TraceBuilt, Event.tracer_octree, ht, hbo]
      · intro i hi
        simp only [Application.held, Application.deref, Application.emit, ho, Option.map_some',
          Option.mem_def, Option.some.injEq] at hi
        subst hi
        simpa [Application.deref, Application.emit, ho] using mem_built_ids_cons _ hbo
      · intro _
        simp [Application.deref, Application.emit, ho]
      · simp [Application.deref, Application.emit, ho, hn]
  · exact h

theorem writes_harmless {α : Type} (o : Option α) :
    ∀ e ∈ writes o, e.tracer_octree = none ∧ e ≠ Event.null_dereference := by
  cases o <;> simp [writes, Event.tracer_octree]

theorem Inv_emits {s : Application T} (h : s.Inv) (evs : List Event)
    (hev : ∀ e ∈ evs, e.tracer_octree = none ∧ e ≠ Event.null_dereference) :
    (s.emits evs).Inv := by
  induction evs generalizing s with
  | nil => simpa [Application.emits] using h
  | cons e evs ih =>
    have h1 := Inv_emit h e (hev e (by simp)).1 (hev e (by simp)).2
    have h2 := ih h1 (fun x hx => hev x (by simp [hx]))
    simpa [Application.emits, Application.emit] using h2

theorem Inv_menubar_Camera {s : Application T} (h : s.Inv) (ui : UIInput T) :
    (menubar_Camera s ui).Inv := by
  unfold menubar_Camera
  split
  · refine Inv_emits (Inv_of_eq h rfl rfl id) _ ?_
    intro e he
    simp only [List.mem_append] at he
    rcases he with (((h | h) | h) | h) | h <;> exact writes_harmless _ e h
  · exact h

theorem Inv_menubar {s : Application T} (h : s.Inv) (ui : UIInput T) : (menubar s ui).Inv := by
  unfold menubar
  split
  · exact Inv_of_eq (Inv_menubar_Camera (Inv_menubar_Start_PT h ui) ui) rfl rfl id
  · rename_i hf
    split
    · exact Inv_of_eq h (by simp) (by simp) (fun _ => by simpa using hf)
    · exact h

theorem Inv_load_scene_controls (env : Env T) {s : Application T} (h : s.Inv)
    (ui : UIInput T) : (load_scene_controls env s ui).Inv := by
  unfold load_scene_controls
  refine Inv_ite_emit ?_ _ _ (by rfl) (by simp)
  split
  · refine Inv_emit (Inv_LoadScene env ?_ _ _) Event.CloseCurrentPopup rfl (by simp)
    exact Inv_of_eq h rfl rfl id
  · exact Inv_of_eq h rfl rfl id

theorem Inv_export_exr_controls {s : Application T} (h : s.Inv) (ui : UIInput T) :
    (export_exr_controls s ui).Inv := by
  unfold export_exr_controls
  refine Inv_ite_emit ?_ _ _ (by rfl) (by simp)
  split
  · refine Inv_emit (Inv_emit ?_ (Event.PathTracer_Save _ _) rfl (by simp))
      Event.CloseCurrentPopup rfl (by simp)
    exact Inv_of_eq h rfl rfl id
  · exact Inv_of_eq h rfl rfl id

theorem Inv_menubar_popups {s : Application T} (h : s.Inv) (ui : UIInput T) :
    (menubar_popups s ui).Inv := by
  unfold menubar_popups
  exact Inv_ite_emit (Inv_ite_emit (Inv_menubar h ui) _ _ (by rfl) (by simp)) _ _ (by rfl)
    (by simp)

theorem Inv_ui_main_menubar {env : Env T} {s t : Application T} {ui : UIInput T}
    (h : s.Inv) (ht : ui_main_menubar env s ui = some t) : t.Inv := by
  obtain ⟨m, hm, hx⟩ := ui_main_menubar_some ht
  have h1 : m.Inv := by
    rcases ui_load_scene_modal_some hm with ⟨_, rfl⟩ | ⟨_, buf, rfl⟩
    · exact Inv_menubar_popups h ui
    · refine Inv_load_scene_controls env ?_ ui
      exact Inv_of_eq (Inv_menubar_popups h ui) rfl rfl id
  rcases ui_export_exr_modal_some hx with ⟨_, rfl⟩ | ⟨_, buf, rfl⟩
  · exact h1
  · refine Inv_export_exr_controls ?_ ui
    exact Inv_of_eq h1 rfl rfl id

theorem Inv_deref {s : Application T} (h : s.Inv) (call : Nat → Event)
    (ho : s.m_octree.isSome = true) (hc : ∀ i, call i ≠ Event.null_dereference)
    (ht : ∀ i, ∀ j ∈ (call i).tracer_octree, j = i) : (s.deref call).Inv := by
  cases hs : s.m_octree with
  | none => simp [hs] at ho
  | some o =>
    obtain ⟨htb, hb, hfl, hn⟩ := h
    have hbo : o.id ∈ built_ids s.trace := hb o.id (by simp [Application.held, hs])
    have e : s.deref call = s.emit (call o.id) := by simp [Application.deref, hs]
    rw [e]
    refine ⟨⟨?_, htb⟩, Built_emit _ hb, hfl, ?_⟩
    · intro j hj
      rw [ht o.id j hj]
      exact hbo
    · simp only [Application.emit, List.mem_cons, not_or]
      exact ⟨fun hx => hc o.id hx.symm, hn⟩

theorem Inv_ui_info_overlay {s : Application T} (h : s.Inv) (ui : UIInput T) :
    (ui_info_overlay s ui).Inv := by
  unfold ui_info_overlay
  split
  · split
    · rename_i ho
      exact Inv_deref h _ ho (by simp) (by simp [Event.tracer_octree])
    · exact h
  · exact h

theorem Inv_Run_ui {env : Env T} {s t : Application T} {ui : UIInput T}
    (h : s.Inv) (ht : Run_ui env s ui = some t) : t.Inv := by
  rcases Run_ui_some ht with ⟨_, hm⟩ | ⟨_, rfl⟩
  · obtain ⟨m, hm2, rfl⟩ := ui_main_some hm
    exact Inv_ui_info_overlay (Inv_ui_main_menubar h hm2) ui
  · exact h

theorem Inv_Run_render (env : Env T) {s : Application T} (h : s.Inv) (ui : UIInput T) :
    (Run_render env s ui).Inv := by
  unfold Run_render
  split
  · rename_i ho
    split
    · exact Inv_emit h _ (by rfl) (by simp)
    · refine Inv_deref ?_ _ ho (by simp) (by simp [Event.tracer_octree])
      exact Inv_emit (Inv_of_eq (Inv_emit (Inv_of_eq h rfl rfl id) Event.Camera_Control rfl
        (by simp)) rfl rfl id) Event.Camera_Update rfl (by simp)
  · exact h

theorem Inv_Run_iteration {env : Env T} {s t : Application T} {ui : UIInput T}
    (h : s.Inv) (ht : Run_iteration env s ui = some t) : t.Inv := by
  obtain ⟨u, hu, rfl⟩ := Run_iteration_some ht
  rw [poll_frame]
  exact Inv_of_eq (Inv_Run_render env (Inv_Run_ui h hu) ui) rfl rfl id

theorem Inv_run {env : Env T} {s t : Application T} {op : Op T}
    (h : s.Inv) (ht : op.run env s = some t) : t.Inv := by
  cases op with
  | LoadScene f l =>
    simp only [Op.run, Option.some.injEq] at ht
    subst ht
    exact Inv_LoadScene env h f l
  | frame ui => exact Inv_Run_iteration h ht

theorem Inv_exec {env : Env T} {s t : Application T} {ops : List (Op T)}
    (h : s.Inv) (ht : exec env s ops = some t) : t.Inv := by
  induction ops generalizing s with
  | nil =>
    simp only [exec, Option.some.injEq] at ht
    subst ht
    exact h
  | cons op ops ih =>
    obtain ⟨u, hu, hx⟩ := exec_cons_some ht
    exact ih (Inv_run h hu) hx

theorem TracersGetBuilt_of_TraceBuilt {tr : List Event} (h : TraceBuilt tr) :
    TracersGetBuilt tr := by
  intro later
  induction later generalizing tr with
  | nil =>
    intro earlier e he
    subst he
    exact h.1
  | cons x later ih =>
    intro earlier e he
    subst he
    exact ih h.2 earlier e rfl

/-! ## `Prepare` before `PathTracer::Render` -/

theorem Event.is_change_not_Prepare {e : Event} (h : e.is_change = true) :
    e.is_Prepare = false := by
  cases e <;> simp_all [Event.is_change, Event.is_Prepare]

theorem Event.ui_ok_ne_Render {b : Bool} {e : Event} (h : e.ui_ok b = true) :
    e ≠ Event.PathTracer_Render := by
  intro hc
  rw [hc] at h
  simp [Event.ui_ok] at h

theorem stale_false_has_Prepare (mid earlier : List Event) (c : Event)
    (hc : c.is_change = true) (h : stale (mid ++ c :: earlier) = false) :
    ∃ e ∈ mid, e.is_Prepare = true := by
  induction mid with
  | nil =>
    simp [stale, hc, Event.is_change_not_Prepare hc] at h
  | cons m mid ih =>
    by_cases hp : m.is_Prepare = true
    · exact ⟨m, by simp, hp⟩
    · by_cases hm : m.is_change = true
      · simp [stale, hp, hm] at h
      · have h2 : stale (mid ++ c :: earlier) = false := by
          simpa [stale, hp, hm] using h
        obtain ⟨e, he, hpe⟩ := ih h2
        exact ⟨e, by simp [he], hpe⟩

theorem PrepareBeforeRender_of_RenderFresh {tr : List Event} (h : RenderFresh tr) :
    PrepareBeforeRender tr := by
  intro later
  induction later generalizing tr with
  | nil =>
    intro mid earlier c he hc
    subst he
    exact stale_false_has_Prepare mid earlier c hc (h.1 rfl)
  | cons x later ih =>
    intro mid earlier c he hc
    subst he
    exact ih h.2 mid earlier c rfl hc

theorem RenderFresh_append {tr : List Event} (h : RenderFresh tr) (evs : List Event)
    (hev : ∀ e ∈ evs, e ≠ Event.PathTracer_Render) : RenderFresh (evs ++ tr) := by
  induction evs with
  | nil => exact h
  | cons e evs ih =>
    refine ⟨fun hc => absurd hc (hev e (by simp)), ih (fun x hx => hev x (by simp [hx]))⟩

theorem RenderFresh_of_UIStep {s t : Application T} (h : RenderFresh s.trace)
    (hs : UIStep s t) : RenderFresh t.trace := by
  obtain ⟨evs, he, hp⟩ := hs.2
  rw [he]
  exact RenderFresh_append h evs (fun e hmem => Event.ui_ok_ne_Render (hp e hmem))

theorem stale_cons_neutral (e : Event) (tr : List Event) (h : e.neutral = true) :
    stale (e :: tr) = stale tr := by
  simp only [Event.neutral, Bool.and_eq_true, Bool.not_eq_true'] at h
  simp [stale, h.1, h.2]

theorem Fresh_emit {s : Application T} (h : s.Fresh) (e : Event) (hn : e.neutral = true) :
    (s.emit e).Fresh := by
  intro hf
  show stale (e :: s.trace) = false
  rw [stale_cons_neutral e _ hn]
  exact h hf

theorem Fresh_ite_emit {s : Application T} (h : s.Fresh) (c : Prop) [Decidable c] (e : Event)
    (hn : e.neutral = true) : (if c then s.emit e else s).Fresh := by
  split
  · exact Fresh_emit h e hn
  · exact h

theorem Fresh_of_eq {s t : Application T} (h : s.Fresh) (htr : t.trace = s.trace)
    (hf : t.m_pathtracing_flag = true → s.m_pathtracing_flag = true) : t.Fresh := by
  intro hflag
  rw [htr]
  exact h (hf hflag)

theorem Fresh_of_flag_false {s : Application T} (h : s.m_pathtracing_flag = false) :
    s.Fresh := by
  intro hf
  rw [h] at hf
  cases hf

theorem writes_eq_nil {α : Type} {o : Option α} (h : o.isSome = false) : writes o = [] := by
  cases o
  · rfl
  · simp at h

theorem menubar_Camera_of_no_edit (s : Application T) (ui : UIInput T)
    (h : ui.edits_camera = false) :
    (menubar_Camera s ui).trace = s.trace
      ∧ (menubar_Camera s ui).m_pathtracing_flag = s.m_pathtracing_flag := by
  unfold menubar_Camera
  split
  · rename_i hm
    simp only [UIInput.edits_camera, hm, Bool.true_and, Bool.or_eq_false_iff] at h
    obtain ⟨⟨⟨⟨h1, h2⟩, h3⟩, h4⟩, h5⟩ := h
    simp [Application.emits, writes_eq_nil h1, writes_eq_nil h2, writes_eq_nil h3,
      writes_eq_nil h4, writes_eq_nil h5]
  · exact ⟨rfl, rfl⟩

theorem menubar_Camera_m_pathtracing_flag (s : Application T) (ui : UIInput T) :
    (menubar_Camera s ui).m_pathtracing_flag = s.m_pathtracing_flag := by
  unfold menubar_Camera
  split <;> rfl

theorem menubar_Start_PT_flag (s : Application T) (ui : UIInput T)
    (h : (menubar_Start_PT s ui).m_pathtracing_flag = true)
    (hs : s.m_pathtracing_flag = false) :
    ui.btn_Start_PT = true ∧ stale (menubar_Start_PT s ui).trace = false := by
  unfold menubar_Start_PT at h ⊢
  split
  · rename_i hc
    simp only [Bool.and_eq_true] at hc
    refine ⟨hc.2, ?_⟩
    cases ho : s.m_octree with
    | none => simp [ho] at hc
    | some o => simp [Application.deref, Application.emit, ho, stale, Event.is_Prepare]
  · rename_i hc
    rw [if_neg hc, hs] at h
    cases h

theorem Fresh_menubar {s : Application T} (h : s.Fresh) (ui : UIInput T)
    (hg : ui.btn_Start_PT = true → ui.edits_camera = false) : (menubar s ui).Fresh := by
  unfold menubar
  split
  · rename_i hf
    have hs : s.m_pathtracing_flag = false := by simpa using hf
    intro hflag
    have hflag2 : (menubar_Start_PT s ui).m_pathtracing_flag = true := by
      rw [← menubar_Camera_m_pathtracing_flag _ ui]
      exact hflag
    obtain ⟨hb, hst⟩ := menubar_Start_PT_flag s ui hflag2 hs
    show stale (menubar_Camera (menubar_Start_PT s ui) ui).trace = false
    rw [(menubar_Camera_of_no_edit _ ui (hg hb)).1]
    exact hst
  · rename_i hf
    split
    · exact Fresh_of_eq h (by simp) (fun _ => by simpa using hf)
    · exact h

theorem Fresh_load_scene_controls (env : Env T) {s : Application T} (h : s.Fresh)
    (ui : UIInput T) (hg : ui.btn_Load = true → s.m_pathtracing_flag = false) :
    (load_scene_controls env s ui).Fresh := by
  by_cases hl : ui.btn_Load = true
  · apply Fresh_of_flag_false
    rw [load_scene_controls_m_pathtracing_flag]
    exact hg hl
  · unfold load_scene_controls
    simp only [hl, Bool.false_eq_true, if_false]
    refine Fresh_ite_emit ?_ _ _ (by rfl)
    exact Fresh_of_eq h rfl id

theorem Fresh_export_exr_controls {s : Application T} (h : s.Fresh) (ui : UIInput T) :
    (export_exr_controls s ui).Fresh := by
  unfold export_exr_controls
  refine Fresh_ite_emit ?_ _ _ (by rfl)
  split
  · refine Fresh_emit (Fresh_emit ?_ (Event.PathTracer_Save _ _) rfl)
      Event.CloseCurrentPopup rfl
    exact Fresh_of_eq h rfl id
  · exact Fresh_of_eq h rfl id

theorem Fresh_menubar_popups {s : Application T} (h : s.Fresh) (ui : UIInput T)
    (hg : ui.btn_Start_PT = true → ui.edits_camera = false) :
    (menubar_popups s ui).Fresh := by
  unfold menubar_popups
  exact Fresh_ite_emit (Fresh_ite_emit (Fresh_menubar h ui hg) _ _ (by rfl)) _ _ (by rfl)

theorem Fresh_ui_main_menubar {env : Env T} {s t : Application T} {ui : UIInput T}
    (h : s.Fresh) (hg : (Op.frame ui).gated s = true)
    (ht : ui_main_menubar env s ui = some t) : t.Fresh := by
  simp only [Op.gated, Bool.and_eq_true, Bool.or_eq_true, Bool.not_eq_true'] at hg
  obtain ⟨hg1, hg2⟩ := hg
  have hmp : (menubar_popups s ui).Fresh := by
    refine Fresh_menubar_popups h ui ?_
    intro hb
    rcases hg2 with h1 | h1
    · rw [hb] at h1
      cases h1
    · exact h1
  obtain ⟨m, hm, hx⟩ := ui_main_menubar_some ht
  have h1 : m.Fresh := by
    rcases ui_load_scene_modal_some hm with ⟨_, rfl⟩ | ⟨hp, buf, rfl⟩
    · exact hmp
    · refine Fresh_load_scene_controls env ?_ ui ?_
      · exact Fresh_of_eq hmp rfl id
      · intro hl
        show (menubar_popups s ui).m_pathtracing_flag = false
        rw [menubar_popups_m_pathtracing_flag]
        rcases hg1 with h2 | h2
        · simp [UIInput.loads, hp, hl] at h2
        · exact h2
  rcases ui_export_exr_modal_some hx with ⟨_, rfl⟩ | ⟨_, buf, rfl⟩
  · exact h1
  · refine Fresh_export_exr_controls ?_ ui
    exact Fresh_of_eq h1 rfl id

theorem Fresh_ui_info_overlay {s : Application T} (h : s.Fresh) (ui : UIInput T) :
    (ui_info_overlay s ui).Fresh := by
  unfold ui_info_overlay
  split
  · split
    · cases ho : s.m_octree with
      | none => simpa [Application.deref, ho] using Fresh_emit h Event.null_dereference rfl
      | some o => simpa [Application.deref, ho] using Fresh_emit h (Event.Octree_GetLevel o.id) rfl
    · exact h
  · exact h

theorem Fresh_Run_ui {env : Env T} {s t : Application T} {ui : UIInput T}
    (h : s.Fresh) (hg : (Op.frame ui).gated s = true)
    (ht : Run_ui env s ui = some t) : t.Fresh := by
  rcases Run_ui_some ht with ⟨_, hm⟩ | ⟨_, rfl⟩
  · obtain ⟨m, hm2, rfl⟩ := ui_main_some hm
    exact Fresh_ui_info_overlay (Fresh_ui_main_menubar h hg hm2) ui
  · exact h

theorem Fresh_Run_render (env : Env T) {s : Application T} (h : s.Fresh)
    (hr : RenderFresh s.trace) (ui : UIInput T) :
    (Run_render env s ui).Fresh ∧ RenderFresh (Run_render env s ui).trace := by
  unfold Run_render
  split
  · split
    · rename_i hf
      exact ⟨Fresh_emit h _ rfl, ⟨fun _ => h hf, hr⟩⟩
    · rename_i hf
      have hs : s.m_pathtracing_flag = false := by simpa using hf
      cases ho : s.m_octree with
      | none =>
        refine ⟨Fresh_of_flag_false (by simp [Application.deref, Application.emit, ho, hs]), ?_⟩
        simp [Application.deref, Application.emit, ho, RenderFresh, hr]
      | some o =>
        refine ⟨Fresh_of_flag_false (by simp [Application.deref, Application.emit, ho, hs]), ?_⟩
        simp [Application.deref, Application.emit, ho, RenderFresh, hr]
  · exact ⟨h, hr⟩

theorem Fresh_Run_iteration {env : Env T} {s t : Application T} {ui : UIInput T}
    (h : s.Fresh) (hr : RenderFresh s.trace) (hg : (Op.frame ui).gated s = true)
    (ht : Run_iteration env s ui = some t) : t.Fresh ∧ RenderFresh t.trace := by
  obtain ⟨u, hu, rfl⟩ := Run_iteration_some ht
  have h1 := Fresh_Run_ui h hg hu
  have h2 := RenderFresh_of_UIStep hr (UIStep_Run_ui hu)
  have h3 := Fresh_Run_render env h1 h2 ui
  rw [poll_frame]
  exact ⟨Fresh_of_eq h3.1 rfl id, h3.2⟩

theorem Fresh_run {env : Env T} {s t : Application T} {op : Op T} (h : s.Fresh)
    (hr : RenderFresh s.trace) (hg : op.gated s = true) (ht : op.run env s = some t) :
    t.Fresh ∧ RenderFresh t.trace := by
  cases op with
  | LoadScene f l =>
    simp only [Op.run, Option.some.injEq] at ht
    subst ht
    refine ⟨Fresh_of_flag_false ?_, RenderFresh_of_UIStep hr (UIStep_LoadScene env s f l)⟩
    rw [LoadScene_m_pathtracing_flag]
    simpa [Op.gated] using hg
  | frame ui => exact Fresh_Run_iteration h hr hg ht

theorem Fresh_exec {env : Env T} {s t : Application T} {ops : List (Op T)} (h : s.Fresh)
    (hr : RenderFresh s.trace) (hg : gated_run env s ops = true)
    (ht : exec env s ops = some t) : t.Fresh ∧ RenderFresh t.trace := by
  induction ops generalizing s with
  | nil =>
    simp only [exec, Option.some.injEq] at ht
    subst ht
    exact ⟨h, hr⟩
  | cons op ops ih =>
    obtain ⟨u, hu, hx⟩ := exec_cons_some ht
    simp only [gated_run, hu, Bool.and_eq_true] at hg
    obtain ⟨h1, h2⟩ := Fresh_run h hr hg.1 hu
    exact ih h1 h2 hg.2 hx

/-- C5 (as the code has it): `LoadScene` never calls `Prepare`, and nothing calls
it implicitly.  In every execution from the application as constructed in which
the file names the dialogs return fit their buffers (so that the execution is
defined), `LoadScene` is only performed while `m_pathtracing_flag` is false (which
is when the menubar offers `Load Scene`) and the `Camera` menu writes nothing in a
frame in which `Start PT` is pressed, every change of the held octree or of the
camera that is followed by a `PathTracer::Render` has a `Prepare` in between. -/
theorem prepare_before_render_when_gated (env : Env T) (cam : Camera T)
    (ot : OctreeTracer T) (pt : PathTracer T) (d : Bool) (ops : List (Op T))
    (hfit : ∀ op ∈ ops, op.fits = true)
    (hg : gated_run env (Application.constructed cam ot pt d) ops = true) :
    (∃ t, exec env (Application.constructed cam ot pt d) ops = some t
        ∧ PrepareBeforeRender t.trace)
      ∧ ∀ (s : Application T) (filename : String) (octree_level : Int),
          ∀ e ∈ (LoadScene env s filename octree_level).since s, e.is_Prepare = false := by
  have h0 : RenderFresh (Application.constructed cam ot pt d).trace := trivial
  obtain ⟨t, ht⟩ := exec_of_fits env (Application.constructed cam ot pt d) ops hfit
  refine ⟨⟨t, ht, PrepareBeforeRender_of_RenderFresh
    (Fresh_exec (Fresh_of_flag_false rfl) h0 hg ht).2⟩, ?_⟩
  intro s f l e he
  have h := (UIStep_LoadScene env s f l).2
  unfold LoadScene at he
  split at he
  · simp [since_self] at he
  · split at he
    · have ht : (s.emit (Event.Scene_Initialize f false)).trace
          = [Event.Scene_Initialize f false] ++ s.trace := rfl
      rw [since_of_trace_eq ht] at he
      simp only [List.reverse_cons, List.reverse_nil, List.nil_append, List.mem_singleton] at he
      subst he
      rfl
    · rename_i scene hparse
      have ht : (Build env
          (Application.emit (reset_new_Octree env
            (Application.emit (Application.emit
              (Application.emit s (Event.Scene_Initialize f true))
              (Event.Voxelizer_Initialize l)) Event.Voxelizer_Voxelize))
            Event.OctreeBuilder_Initialize)
          env.OctreeBuilder_Initialize
          (env.Voxelizer_Voxelize (env.Voxelizer_Initialize l) scene) l).trace
          = [Event.OctreeBuilder_Build s.heap_next l,
             Event.OctreeBuilder_Initialize, Event.reset_new_Octree s.heap_next,
             Event.Voxelizer_Voxelize, Event.Voxelizer_Initialize l,
             Event.Scene_Initialize f true] ++ s.trace := by
        simp [Application.emit, reset_new_Octree, Build]
      rw [since_of_trace_eq ht] at he
      simp only [List.reverse_cons, List.reverse_nil, List.nil_append, List.cons_append,
        List.mem_cons, List.mem_singleton, List.not_mem_nil, or_false] at he
      rcases he with h | h | h | h | h | h <;> subst h <;> rfl

theorem prepare_before_render_when_gated_witness :
    (∀ op ∈ demoGatedOps, op.fits = true)
      ∧ gated_run demoEnv demoApp demoGatedOps = true
      ∧ ((∃ t, exec demoEnv demoApp demoGatedOps = some t ∧ PrepareBeforeRender t.trace)
        ∧ ∀ (s : Application demoTypes) (filename : String) (octree_level : Int),
            ∀ e ∈ (LoadScene demoEnv s filename octree_level).since s,
              e.is_Prepare = false) :=
  ⟨by decide, by decide,
    prepare_before_render_when_gated demoEnv demoCamera demoOctreeTracer demoPathTracer true
      demoGatedOps (by decide)
      (by decide)⟩

/-- C5 refuted as stated: the scene is loaded and path tracing started through the
UI; then `LoadScene` is called again (it succeeds, `m_pathtracing_flag` being true)
and one more frame is run.  That frame calls `PathTracer::Render` although no
`Prepare` was called after the octree changed. -/
theorem LoadScene_while_pathtracing_not_prepared :
    exec demoEnv demoApp (demoReloadOps.take 3) = some demoPathTracing
      ∧ demoPathTracing.m_pathtracing_flag = true
      ∧ demoPathTracing.held = some 0
      ∧ exec demoEnv demoApp demoReloadOps = some demoReloadEnd
      ∧ demoReloadEnd.held = some 1
      ∧ demoReloadEnd.trace.take 3
          = [Event.PathTracer_Render, Event.Octree_GetLevel 1, Event.OctreeBuilder_Build 1 9]
      ∧ ¬ PrepareBeforeRender demoReloadEnd.trace := by
  refine ⟨rfl, by decide, by decide, rfl, by decide, by decide, ?_⟩
  intro h
  have h2 := h [] [Event.Octree_GetLevel 1]
    (demoReloadEnd.trace.drop 3) (Event.OctreeBuilder_Build 1 9)
    (by decide) (by decide)
  revert h2
  decide

/-! ## Every reachable state respects the allocation discipline -/

theorem built_ids_cons_of_not_built (e : Event) (tr : List Event) (h : e.built = none) :
    built_ids (e :: tr) = built_ids tr := by
  simp [built_ids, List.filterMap_cons, h]

theorem Alloc_of_eq {s t : Application T} (h : s.Alloc) (ho : t.m_octree = s.m_octree)
    (hn : t.heap_next = s.heap_next) (ht : built_ids t.trace = built_ids s.trace) :
    t.Alloc := by
  refine ⟨?_, ?_⟩
  · intro i hi
    rw [hn]
    exact h.1 i (by simpa [Application.held, ho] using hi)
  · intro i hi
    rw [hn]
    exact h.2 i (by rwa [ht] at hi)

theorem Alloc_emit {s : Application T} (h : s.Alloc) (e : Event) (he : e.built = none) :
    (s.emit e).Alloc :=
  Alloc_of_eq h rfl rfl (built_ids_cons_of_not_built e _ he)

theorem Alloc_ite_emit {s : Application T} (h : s.Alloc) (c : Prop) [Decidable c] (e : Event)
    (he : e.built = none) : (if c then s.emit e else s).Alloc := by
  split
  · exact Alloc_emit h e he
  · exact h

theorem Alloc_emits {s : Application T} (h : s.Alloc) (evs : List Event)
    (hev : ∀ e ∈ evs, e.built = none) : (s.emits evs).Alloc := by
  induction evs generalizing s with
  | nil => simpa [Application.emits] using h
  | cons e evs ih =>
    have h1 := Alloc_emit h e (hev e (by simp))
    have h2 := ih h1 (fun x hx => hev x (by simp [hx]))
    simpa [Application.emits, Application.emit] using h2

theorem Alloc_deref {s : Application T} (h : s.Alloc) (call : Nat → Event)
    (hc : ∀ i, (call i).built = none) : (s.deref call).Alloc := by
  unfold Application.deref
  split
  · exact Alloc_emit h _ (hc _)
  · exact Alloc_emit h _ rfl

theorem Alloc_LoadScene (env : Env T) {s : Application T} (h : s.Alloc) (f : String)
    (l : Int) : (LoadScene env s f l).Alloc := by
  unfold LoadScene
  split
  · exact h
  · split
    · exact Alloc_emit h _ rfl
    · refine ⟨?_, ?_⟩
      · intro i hi
        simp only [Build, reset_new_Octree, Application.emit, Application.held,
          Option.map_some', Option.mem_def, Option.some.injEq] at hi
        subst hi
        simp [Build, reset_new_Octree, Application.emit]
      · intro i hi
        simp only [Build, reset_new_Octree, Application.emit, built_ids,
          List.filterMap_cons, Event.built, List.mem_cons] at hi
        simp only [Build, reset_new_Octree, Application.emit]
        rcases hi with hi | hi
        · omega
        · have := h.2 i hi
          omega

theorem writes_not_built {α : Type} (o : Option α) : ∀ e ∈ writes o, e.built = none := by
  cases o <;> simp [writes, Event.built]

theorem Alloc_menubar {s : Application T} (h : s.Alloc) (ui : UIInput T) :
    (menubar s ui).Alloc := by
  have h1 : (menubar_Start_PT s ui).Alloc := by
    unfold menubar_Start_PT
    split
    · refine Alloc_deref ?_ _ (fun _ => rfl)
      exact Alloc_of_eq h rfl rfl rfl
    · exact h
  have h2 : (menubar_Camera (menubar_Start_PT s ui) ui).Alloc := by
    unfold menubar_Camera
    split
    · refine Alloc_emits ?_ _ ?_
      · exact Alloc_of_eq h1 rfl rfl rfl
      · intro e he
        simp only [List.mem_append] at he
        rcases he with (((h | h) | h) | h) | h <;> exact writes_not_built _ e h
    · exact h1
  unfold menubar
  split
  · exact Alloc_of_eq h2 rfl rfl rfl
  · split
    · exact Alloc_of_eq h (by simp) (by simp) (by simp)
    · exact h

theorem Alloc_menubar_popups {s : Application T} (h : s.Alloc) (ui : UIInput T) :
    (menubar_popups s ui).Alloc := by
  unfold menubar_popups
  exact Alloc_ite_emit (Alloc_ite_emit (Alloc_menubar h ui) _ _ (by rfl)) _ _ (by rfl)

theorem Alloc_load_scene_controls (env : Env T) {s : Application T} (h : s.Alloc)
    (ui : UIInput T) : (load_scene_controls env s ui).Alloc := by
  unfold load_scene_controls
  refine Alloc_ite_emit ?_ _ _ (by rfl)
  split
  · refine Alloc_emit (Alloc_LoadScene env ?_ _ _) Event.CloseCurrentPopup rfl
    exact Alloc_of_eq h rfl rfl rfl
  · exact Alloc_of_eq h rfl rfl rfl

theorem Alloc_export_exr_controls {s : Application T} (h : s.Alloc) (ui : UIInput T) :
    (export_exr_controls s ui).Alloc := by
  unfold export_exr_controls
  refine Alloc_ite_emit ?_ _ _ (by rfl)
  split
  · refine Alloc_emit (Alloc_emit ?_ (Event.PathTracer_Save _ _) rfl)
      Event.CloseCurrentPopup rfl
    exact Alloc_of_eq h rfl rfl rfl
  · exact Alloc_of_eq h rfl rfl rfl

theorem Alloc_Run_ui {env : Env T} {s t : Application T} {ui : UIInput T}
    (h : s.Alloc) (ht : Run_ui env s ui = some t) : t.Alloc := by
  rcases Run_ui_some ht with ⟨_, hm⟩ | ⟨_, rfl⟩
  · obtain ⟨m, hm2, rfl⟩ := ui_main_some hm
    obtain ⟨a, ha, hx⟩ := ui_main_menubar_some hm2
    have h1 : a.Alloc := by
      rcases ui_load_scene_modal_some ha with ⟨_, rfl⟩ | ⟨_, buf, rfl⟩
      · exact Alloc_menubar_popups h ui
      · refine Alloc_load_scene_controls env ?_ ui
        exact Alloc_of_eq (Alloc_menubar_popups h ui) rfl rfl rfl
    have h2 : m.Alloc := by
      rcases ui_export_exr_modal_some hx with ⟨_, rfl⟩ | ⟨_, buf, rfl⟩
      · exact h1
      · refine Alloc_export_exr_controls ?_ ui
        exact Alloc_of_eq h1 rfl rfl rfl
    unfold ui_info_overlay
    split
    · split
      · exact Alloc_deref h2 _ (fun _ => rfl)
      · exact h2
    · exact h2
  · exact h

theorem Alloc_Run_render (env : Env T) {s : Application T} (h : s.Alloc) (ui : UIInput T) :
    (Run_render env s ui).Alloc := by
  unfold Run_render
  split
  · split
    · exact Alloc_emit h _ rfl
    · refine Alloc_deref ?_ _ (fun _ => rfl)
      refine Alloc_emit ?_ Event.Camera_Update rfl
      refine Alloc_of_eq (s := Application.emit
        { s with m_camera := env.Camera_Control s.m_camera ui.control }
        Event.Camera_Control) ?_ rfl rfl rfl
      refine Alloc_emit ?_ Event.Camera_Control rfl
      exact Alloc_of_eq h rfl rfl rfl
  · exact h

theorem Alloc_run {env : Env T} {s t : Application T} {op : Op T}
    (h : s.Alloc) (ht : op.run env s = some t) : t.Alloc := by
  cases op with
  | LoadScene f l =>
    simp only [Op.run, Option.some.injEq] at ht
    subst ht
    exact Alloc_LoadScene env h f l
  | frame ui =>
    obtain ⟨u, hu, rfl⟩ := Run_iteration_some ht
    rw [poll_frame]
    exact Alloc_of_eq (Alloc_Run_render env (Alloc_Run_ui h hu) ui) rfl rfl rfl

theorem Alloc_exec {env : Env T} {s t : Application T} {ops : List (Op T)}
    (h : s.Alloc) (ht : exec env s ops = some t) : t.Alloc := by
  induction ops generalizing s with
  | nil =>
    simp only [exec, Option.some.injEq] at ht
    subst ht
    exact h
  | cons op ops ih =>
    obtain ⟨u, hu, hx⟩ := exec_cons_some ht
    exact ih (Alloc_run h hu) hx

theorem Alloc_constructed (cam : Camera T) (ot : OctreeTracer T) (pt : PathTracer T)
    (d : Bool) : (Application.constructed cam ot pt d).Alloc := by
  refine ⟨?_, ?_⟩
  · intro i hi
    simp [Application.held, Application.constructed] at hi
  · intro i hi
    simp [Application.constructed, built_ids] at hi

/-- In every state the constructed application reaches, the held object was
allocated earlier. -/
theorem WF_exec (env : Env T) (cam : Camera T) (ot : OctreeTracer T) (pt : PathTracer T)
    (d : Bool) (ops : List (Op T)) (t : Application T)
    (ht : exec env (Application.constructed cam ot pt d) ops = some t) : t.WF :=
  (Alloc_exec (Alloc_constructed cam ot pt d) ht).1

/-- In every state the constructed application reaches, no object with a serial
number that is still to be handed out has been built. -/
theorem Unused_exec (env : Env T) (cam : Camera T) (ot : OctreeTracer T)
    (pt : PathTracer T) (d : Bool) (ops : List (Op T)) (t : Application T)
    (ht : exec env (Application.constructed cam ot pt d) ops = some t) : t.Unused :=
  (Alloc_exec (Alloc_constructed cam ot pt d) ht).2

/-! ## The flag is only raised by `Start PT` -/

theorem ui_info_overlay_m_pathtracing_flag (s : Application T) (ui : UIInput T) :
    (ui_info_overlay s ui).m_pathtracing_flag = s.m_pathtracing_flag := by
  unfold ui_info_overlay Application.deref
  split
  · split
    · split <;> rfl
    · rfl
  · rfl

theorem menubar_after_Start_PT (s : Application T) (ui : UIInput T)
    (hs : s.m_pathtracing_flag = false) :
    UIStep (menubar_Start_PT s ui) (menubar s ui)
      ∧ (menubar s ui).m_pathtracing_flag = (menubar_Start_PT s ui).m_pathtracing_flag := by
  unfold menubar
  simp only [hs, Bool.not_false, if_true]
  exact ⟨(UIStep_menubar_Camera _ ui).trans (UIStep.of_eq rfl rfl),
    menubar_Camera_m_pathtracing_flag _ ui⟩

theorem ui_main_after_menubar {env : Env T} {s t : Application T} {ui : UIInput T}
    (ht : ui_main env s ui = some t) :
    UIStep (menubar s ui) t
      ∧ t.m_pathtracing_flag = (menubar s ui).m_pathtracing_flag := by
  obtain ⟨m, hm, rfl⟩ := ui_main_some ht
  obtain ⟨a, ha, hx⟩ := ui_main_menubar_some hm
  refine ⟨?_, ?_⟩
  · exact (((UIStep_popups_after_menubar s ui).trans (UIStep_ui_load_scene_modal ha)).trans
      (UIStep_ui_export_exr_modal hx)).trans (UIStep_ui_info_overlay _ ui)
  · rw [ui_info_overlay_m_pathtracing_flag, ui_export_exr_modal_m_pathtracing_flag hx,
      ui_load_scene_modal_m_pathtracing_flag ha, menubar_popups_m_pathtracing_flag]

theorem Run_ui_raises_flag {env : Env T} {s u : Application T} {ui : UIInput T}
    (hs : s.m_pathtracing_flag = false) (hu : Run_ui env s ui = some u)
    (ht : u.m_pathtracing_flag = true) :
    ui.btn_Start_PT = true ∧ ∃ o, s.m_octree = some o
      ∧ ∃ evs, u.trace = evs ++ Event.PathTracer_Prepare o.id :: s.trace := by
  rcases Run_ui_some hu with ⟨_, hm⟩ | ⟨_, rfl⟩
  · have h1 := menubar_after_Start_PT s ui hs
    have h2 := ui_main_after_menubar hm
    rw [h2.2, h1.2] at ht
    obtain ⟨evs, he, _⟩ := (h1.1.trans h2.1).2
    unfold menubar_Start_PT at ht he
    split at ht
    · rename_i hc
      simp only [Bool.and_eq_true] at hc
      cases ho : s.m_octree with
      | none => simp [ho] at hc
      | some o =>
        refine ⟨hc.2, o, rfl, evs, ?_⟩
        rw [he, if_pos (by simpa [ho] using hc.2)]
        simp [Application.deref, Application.emit, ho]
    · rw [hs] at ht
      cases ht
  · rw [hs] at ht
    cases ht

theorem run_m_octree_isSome {env : Env T} {s t : Application T} {op : Op T}
    (hr : op.run env s = some t) (hs : s.m_octree.isSome = true) :
    t.m_octree.isSome = true := by
  cases op with
  | LoadScene f l =>
    simp only [Op.run, Option.some.injEq] at hr
    subst hr
    exact (UIStep_LoadScene env s f l).1 hs
  | frame ui =>
    obtain ⟨u, hu, _⟩ := Run_iteration_some hr
    rw [(Run_iteration_m_octree hu hr).2.1]
    exact (UIStep_Run_ui hu).1 hs

theorem run_raises_flag {env : Env T} {s t : Application T} {op : Op T}
    (hr : op.run env s = some t)
    (hs : s.m_pathtracing_flag = false) (ht : t.m_pathtracing_flag = true) :
    ∃ ui o, op = Op.frame ui ∧ ui.btn_Start_PT = true ∧ s.m_octree = some o
      ∧ Event.PathTracer_Prepare o.id ∈ t.since s := by
  cases op with
  | LoadScene f l =>
    simp only [Op.run, Option.some.injEq] at hr
    subst hr
    rw [LoadScene_m_pathtracing_flag, hs] at ht
    cases ht
  | frame ui =>
    obtain ⟨u, hu, _⟩ := Run_iteration_some hr
    have hit := Run_iteration_m_octree hu hr
    rw [hit.2.2] at ht
    obtain ⟨hb, o, ho, evs, he⟩ := Run_ui_raises_flag hs hu ht
    refine ⟨ui, o, rfl, hb, ho, ?_⟩
    have hrt : t.trace
        = (Event.PathTracer_Render :: evs ++ [Event.PathTracer_Prepare o.id]) ++ s.trace := by
      rw [hit.1]
      have hsome : u.m_octree.isSome = true := (UIStep_Run_ui hu).1 (by simp [ho])
      simp [Run_render, hsome, ht, Application.emit, he]
    rw [since_of_trace_eq hrt]
    simp

/-! ## The tracers and the octree over whole executions -/

/-- C8: in every execution of the application (calls of `LoadScene` and iterations
of the frame loop, from the application as constructed; `t` is the state it
reaches), whenever an octree is handed to `OctreeTracer::Render` or to
`PathTracer::Prepare`, the call of `OctreeBuilder::Build` that `LoadScene` made for
that object has returned earlier; and after every operation the held octree, if
any, is one for which `Build` has returned.  An execution in which the file names
the dialogs return fit their buffers is defined, that is, reaches a state. -/
theorem tracers_get_built_octrees (env : Env T) (cam : Camera T) (ot : OctreeTracer T)
    (pt : PathTracer T) (d : Bool) (ops : List (Op T)) :
    (∀ t, exec env (Application.constructed cam ot pt d) ops = some t →
        TracersGetBuilt t.trace ∧ t.Built)
      ∧ ((∀ op ∈ ops, op.fits = true) →
          ∃ t, exec env (Application.constructed cam ot pt d) ops = some t) := by
  refine ⟨fun t ht => ?_, exec_of_fits env _ ops⟩
  have h := Inv_exec (Inv_constructed cam ot pt d) ht
  exact ⟨TracersGetBuilt_of_TraceBuilt h.1, h.2.1⟩

theorem tracers_get_built_octrees_witness :
    exec demoEnv demoApp demoGatedOps = some demoGatedEnd
      ∧ Event.OctreeTracer_Render 0 ∈ demoGatedEnd.trace
      ∧ Event.PathTracer_Prepare 1 ∈ demoGatedEnd.trace
      ∧ (TracersGetBuilt demoGatedEnd.trace ∧ demoGatedEnd.Built) :=
  ⟨rfl, by decide, by decide,
    (tracers_get_built_octrees demoEnv demoCamera demoOctreeTracer demoPathTracer true
      demoGatedOps).1 demoGatedEnd (by rfl)⟩

/-- C9: in every state `t` reached from the application as constructed by calls of
`LoadScene` and iterations of the frame loop, `m_pathtracing_flag` true implies
that `m_octree` is non-null, and no dereference of a null `m_octree` (in
particular none in the `Prepare` call of `Start PT`) has happened.  The reasons:
no operation takes a non-null `m_octree` to null, and an operation that raises
the flag is a frame in which `Start PT` is pressed while an octree is held, and
it calls `Prepare` on that octree in the same step.  An execution in which the
file names the dialogs return fit their buffers is defined, that is, reaches a
state. -/
theorem pathtracing_implies_octree (env : Env T) (cam : Camera T) (ot : OctreeTracer T)
    (pt : PathTracer T) (d : Bool) (ops : List (Op T)) :
    (∀ t, exec env (Application.constructed cam ot pt d) ops = some t →
        (t.m_pathtracing_flag = true → t.m_octree.isSome = true)
          ∧ Event.null_dereference ∉ t.trace)
      ∧ ((∀ op ∈ ops, op.fits = true) →
          ∃ t, exec env (Application.constructed cam ot pt d) ops = some t)
      ∧ (∀ (s t : Application T) (op : Op T), op.run env s = some t →
          s.m_octree.isSome = true → t.m_octree.isSome = true)
      ∧ ∀ (s t : Application T) (op : Op T), op.run env s = some t →
          s.m_pathtracing_flag = false → t.m_pathtracing_flag = true →
            ∃ ui o, op = Op.frame ui ∧ ui.btn_Start_PT = true ∧ s.m_octree = some o
              ∧ Event.PathTracer_Prepare o.id ∈ t.since s := by
  refine ⟨fun t ht => ?_, exec_of_fits env _ ops,
    fun s t op hr hs => run_m_octree_isSome hr hs,
    fun s t op hr hs ht => run_raises_flag hr hs ht⟩
  have h := Inv_exec (Inv_constructed cam ot pt d) ht
  exact ⟨h.2.2.1, h.2.2.2⟩

theorem pathtracing_implies_octree_witness :
    exec demoEnv demoApp demoGatedOps = some demoGatedEnd
      ∧ demoGatedEnd.m_pathtracing_flag = true
      ∧ ((demoGatedEnd.m_pathtracing_flag = true → demoGatedEnd.m_octree.isSome = true)
        ∧ Event.null_dereference ∉ demoGatedEnd.trace) :=
  ⟨rfl, by decide,
    (pathtracing_implies_octree demoEnv demoCamera demoOctreeTracer demoPathTracer true
      demoGatedOps).1 demoGatedEnd (by rfl)⟩

end SVO
